import Mathlib

/-! ZapManejo backend: the startup sequence.

A shallow embedding of `main.go`, `internal/database/db.go`,
`internal/database/migrate.go` and `internal/routes/setup.go`.

Every Go function becomes a Lean function that returns a `Run`: the list of
observable events it performs (log lines, library calls, calls of functions of
this repository) together with the value it returns, or `none` when control
never comes back to the caller (`log.Fatal` or a panic ends the process,
`app.Listen` keeps serving).  Everything the source does not determine (the environment,
the outcome of each library call, the content of the lifetime-slot table) is a
field of `World`, and the theorems quantify over it.
-/

namespace ZapManejo

/-! ## Environment -/

/-- The process environment: `none` for a variable that is unset. -/
abbrev Env := String → Option String

/-- Go's `os.Getenv`: the value of the variable, `""` when it is unset. -/
def Getenv (env : Env) (key : String) : String :=
  (env key).getD ""

/-! ## Events -/

/-- The fields of `cors.Config` that `main` fills in. -/
structure CorsConfig where
  AllowOrigins : String
  AllowHeaders : String
  AllowCredentials : Bool
  AllowMethods : String
  deriving DecidableEq, Repr

/-- Modelled from the spec: `models.LifetimeSlot` is not among the sources; the
spec calls it "a seed/reference record representing a named life-stage
bucket". -/
structure LifetimeSlot where
  name : String
  deriving DecidableEq, Repr

/-- Functions of this repository whose calls are recorded in the trace. -/
inductive Func where
  | validateEnvVars
  | Connect
  | AutoMigrate
  | SeedLifetimeSlots
  | Setup
  | SetupAuthRoutes
  | SetupAnimalRoutes
  | SetupHealthRoutes
  | SetupPaymentRoutes
  | SetupWhatsAppRoutes
  deriving DecidableEq, Repr

/-- Calls into libraries (godotenv, gorm, database/sql, fiber), with the
arguments the source passes.  Durations are in nanoseconds, as Go's
`time.Duration`.  `corsNew cfg` is the call `cors.New(cfg)`, `appUse cfg` the
call of `app.Use` on the handler `cors.New(cfg)` returned. -/
inductive Lib where
  | godotenvLoad
  | gormOpen (dsn : String)
  | dbDB
  | SetMaxIdleConns (n : Int)
  | SetMaxOpenConns (n : Int)
  | SetConnMaxLifetime (d : Int)
  | SetConnMaxIdleTime (d : Int)
  | Ping
  | gormAutoMigrate (models : List String)
  | Exec (sql : String)
  | countSlots
  | createSlots (rows : List LifetimeSlot)
  | fiberNew (appName : String)
  | corsNew (cfg : CorsConfig)
  | appUse (cfg : CorsConfig)
  | appGet (path : String)
  | appListen (addr : String)
  deriving DecidableEq, Repr

/-- Observable events of a run. -/
inductive Event where
  /-- A line written by `log.Println` or `log.Printf`. -/
  | log (line : String)
  /-- The line written by `log.Fatal`, which then exits the process. -/
  | fatal (msg : String)
  /-- A Go panic that nothing recovers: the process exits. -/
  | panic (msg : String)
  /-- A call of a function of this repository. -/
  | call (f : Func)
  /-- A call into a library. -/
  | lib (c : Lib)
  deriving DecidableEq, Repr

/-! ## Runs -/

/-- A run of a piece of code: the events performed, and the value returned;
`result = none` when control never returns to the caller. -/
structure Run (α : Type) where
  events : List Event
  result : Option α

/-- Returning a value performs no event. -/
def Run.ret {α : Type} (a : α) : Run α :=
  ⟨[], some a⟩

/-- Sequencing: the continuation runs only when the first part returned. -/
def Run.andThen {α β : Type} (x : Run α) (f : α → Run β) : Run β :=
  match x.result with
  | none => ⟨x.events, none⟩
  | some a => ⟨x.events ++ (f a).events, (f a).result⟩

instance : Monad Run where
  pure := Run.ret
  bind := Run.andThen

/-- One event, after which control continues. -/
def emit (e : Event) : Run Unit :=
  ⟨[e], some ()⟩

/-- Go's `log.Println` and `log.Printf`, given the formatted line. -/
def logLine (line : String) : Run Unit :=
  emit (Event.log line)

/-- Go's `log.Fatal`: writes the message and calls `os.Exit(1)`. -/
def logFatal {α : Type} (msg : String) : Run α :=
  ⟨[Event.fatal msg], none⟩

/-- A library call that returns. -/
def libCall (c : Lib) : Run Unit :=
  emit (Event.lib c)

/-- A panic raised inside a library call and recovered nowhere. -/
def goPanic {α : Type} (msg : String) : Run α :=
  ⟨[Event.panic msg], none⟩

/-- A call of a function of this repository: the call is recorded, then the
body runs. -/
def invoke {α : Type} (f : Func) (body : Run α) : Run α :=
  Run.andThen (emit (Event.call f)) (fun _ => body)

/-! ## `main.go`: validateEnvVars -/

/-- The map literal `requiredEnvs` of `validateEnvVars`, in the order it is
written.  Go iterates a map in an unspecified order, so the iteration order is
an argument of `validateEnvVars`: a permutation of this list. -/
def requiredEnvs : List (String × String) :=
  [("DATABASE_URL", "PostgreSQL connection string"),
   ("JWT_SECRET", "Secret key for JWT token signing"),
   ("WHATSAPP_VERIFY_TOKEN", "Token for WhatsApp webhook verification")]

/-- The loop of `validateEnvVars` (lines 21-26): `missing` grows by one entry
`env+" ("+description+")"` for every key whose value is `""`. -/
def collectMissing (order : List (String × String)) (env : Env) : List String :=
  order.foldl
    (fun missing kd =>
      if Getenv env kd.1 = "" then missing ++ [kd.1 ++ " (" ++ kd.2 ++ ")"] else missing)
    []

/-- The closure of lines 31-37: `result += "\n  - " + missing[i]` for
`i = 1 .. len(missing) - 1`. -/
def restOfMissing (missing : List String) : String :=
  (missing.drop 1).foldl (fun result m => result ++ ("\n  - " ++ m)) ""

/-- `validateEnvVars` (main.go, lines 14-41), for the iteration order `order`
of the map. -/
def validateEnvVars (order : List (String × String)) (env : Env) : Run Unit :=
  let missing := collectMissing order env
  if h : 0 < missing.length then
    logFatal ("FATAL: Required environment variables not set:\n  - " ++
      missing[0] ++ restOfMissing missing)
  else
    logLine "✓ All required environment variables are set"

/-! ## The world outside the source -/

/-- Everything the source does not determine.  An error is represented by the
text of its `Error()`. -/
structure World where
  /-- The environment as `os.Getenv` sees it once `godotenv.Load` has returned. -/
  env : Env
  /-- The error of `godotenv.Load()`, if any. -/
  dotenvErr : Option String
  /-- The error of `gorm.Open`, if any. -/
  openErr : Option String
  /-- The error of `DB.DB()`, if any. -/
  poolErr : Option String
  /-- The error of `sqlDB.Ping()`, if any. -/
  pingErr : Option String
  /-- The error of `DB.AutoMigrate`, if any. -/
  migrateErr : Option String
  /-- The error of the statement creating `idx_animals_brinco`, if any. -/
  idxBrincoErr : Option String
  /-- The error of the statement creating `idx_animals_birth`, if any. -/
  idxBirthErr : Option String
  /-- The rows of the lifetime-slot table when the process starts. -/
  slots : List LifetimeSlot
  /-- The fixed set of records the Seed Initializer inserts. -/
  seedSet : List LifetimeSlot
  /-- The error of the Seed Initializer's insert, if any. -/
  seedErr : Option String
  /-- What `cors.New` does with a configuration: `none` when it returns the
  handler, `some msg` when it panics with `msg`.  Fiber's source is not among
  the sources, so this is left to the world. -/
  corsNewPanic : CorsConfig → Option String
  /-- What `app.Listen` does: `none` when it keeps serving, `some r` when it
  returns `r` (`none` for a nil error). -/
  listenRet : Option (Option String)

/-! ## `internal/database`: the Seed Initializer -/

/-- Modelled from the spec: `SeedLifetimeSlots` is called by `AutoMigrate`
(migrate.go, line 40, under the comment "idempotent - only creates if empty")
but its body is not among the sources.  Spec 4.4: "check whether the Lifetime
Slot table is empty. If empty, insert the fixed, predetermined set of
lifetime-stage records. If not empty, perform no writes. ... any write error is
surfaced as a warning/log rather than crashing the process".  The argument
`table` is the content of the table before the run, the value returned its
content afterwards; a failed insert leaves the table as it was. -/
def SeedLifetimeSlots (seedSet : List LifetimeSlot) (insertErr : Option String)
    (table : List LifetimeSlot) : Run (List LifetimeSlot) := do
  libCall Lib.countSlots
  if table.length = 0 then
    libCall (Lib.createSlots seedSet)
    match insertErr with
    | some err =>
      logLine ("Warning: Failed to seed lifetime slots: " ++ err)
      pure table
    | none => pure (table ++ seedSet)
  else
    pure table

/-! ## `internal/database/migrate.go` -/

/-- The statement of migrate.go, line 27. -/
def sqlIdxBrinco : String :=
  "CREATE INDEX IF NOT EXISTS idx_animals_brinco ON animals(brinco)"

/-- The statement of migrate.go, line 32. -/
def sqlIdxBirth : String :=
  "CREATE INDEX IF NOT EXISTS idx_animals_birth ON animals(birth_date)"

/-- The models handed to `DB.AutoMigrate` (migrate.go, lines 13-18). -/
def migratedModels : List String :=
  ["User", "Animal", "HealthRecord", "CostConfig", "Payment", "LifetimeSlot"]

/-- `AutoMigrate` (migrate.go, lines 8-42).  Returns the content of the
lifetime-slot table after seeding. -/
def AutoMigrate (w : World) : Run (List LifetimeSlot) := do
  logLine "Starting database migration..."
  libCall (Lib.gormAutoMigrate migratedModels)
  match w.migrateErr with
  | some err => logFatal ("Failed to migrate database schema:" ++ err)
  | none => pure ()
  logLine "✓ Database schema migrated successfully"
  logLine "Creating indexes..."
  libCall (Lib.Exec sqlIdxBrinco)
  match w.idxBrincoErr with
  | some err => logLine ("Warning: Failed to create idx_animals_brinco: " ++ err)
  | none => pure ()
  libCall (Lib.Exec sqlIdxBirth)
  match w.idxBirthErr with
  | some err => logLine ("Warning: Failed to create idx_animals_birth: " ++ err)
  | none => pure ()
  logLine "✓ Indexes created successfully"
  logLine "Seeding lifetime slots..."
  let table ← invoke Func.SeedLifetimeSlots (SeedLifetimeSlots w.seedSet w.seedErr w.slots)
  logLine "✓ Migration completed successfully"
  pure table

/-! ## `internal/database/db.go` -/

/-- Go's `time.Second`, in nanoseconds. -/
def Second : Int := 1000000000

/-- Go's `time.Minute`. -/
def Minute : Int := 60 * Second

/-- Go's `time.Hour`. -/
def Hour : Int := 60 * Minute

/-- The connection limit of the provider, from the comment of db.go, line 32:
"DigitalOcean basic PostgreSQL typically allows 22 connections". -/
def providerCeiling : Int := 22

/-- `Connect` (db.go, lines 14-46).  `log.Fatal(s, err)` formats like
`fmt.Sprint`, which puts no space between a string operand and its neighbour.
Returns the content of the lifetime-slot table after `AutoMigrate`. -/
def Connect (w : World) : Run (List LifetimeSlot) := do
  let dsn := Getenv w.env "DATABASE_URL"
  if dsn = "" then
    logFatal "DATABASE_URL not set"
  libCall (Lib.gormOpen dsn)
  match w.openErr with
  | some err => logFatal ("Failed to connect to database:" ++ err)
  | none => pure ()
  libCall Lib.dbDB
  match w.poolErr with
  | some err => logFatal ("Failed to get database instance:" ++ err)
  | none => pure ()
  libCall (Lib.SetMaxIdleConns 10)
  libCall (Lib.SetMaxOpenConns 20)
  libCall (Lib.SetConnMaxLifetime Hour)
  libCall (Lib.SetConnMaxIdleTime (10 * Minute))
  libCall Lib.Ping
  match w.pingErr with
  | some err => logFatal ("Database ping failed:" ++ err)
  | none => pure ()
  logLine "✓ Connected to DigitalOcean PostgreSQL with connection pooling"
  invoke Func.AutoMigrate (AutoMigrate w)

/-! ## `internal/routes/setup.go` -/

/-- The part of a `fiber.Ctx` the health check touches: the request line and
the response under construction. -/
structure Ctx where
  method : String
  path : String
  status : Nat
  contentType : String
  body : String
  deriving DecidableEq, Repr

/-- The context fiber hands to the first handler of a request: status 200, no
body yet. -/
def Ctx.fresh (method path : String) : Ctx :=
  ⟨method, path, 200, "", ""⟩

/-- JSON encoding of a map of strings to strings that need no escaping, as
`encoding/json` writes it. -/
def jsonObject (m : List (String × String)) : String :=
  "\x7b" ++ ",".intercalate (m.map (fun kv => "\"" ++ kv.1 ++ "\":\"" ++ kv.2 ++ "\"")) ++ "\x7d"

/-- The method `c.JSON` of fiber: the body is the encoding, the content type
`application/json`; the status is left as it is. -/
def Ctx.JSON (c : Ctx) (m : List (String × String)) : Ctx :=
  { c with contentType := "application/json", body := jsonObject m }

/-- The database as a handler finds it in the global `database.DB`: `none` for
a nil handle, otherwise the content of the lifetime-slot table. -/
abbrev Database := Option (List LifetimeSlot)

/-- The handler of `GET /` (setup.go, lines 13-15).  It can reach the database
through the global `database.DB`, here the argument `db`. -/
def healthCheck (_db : Database) (c : Ctx) : Run Ctx :=
  pure (c.JSON [("status", "ZapManejo backend live")])

/-- `Setup` (setup.go, lines 5-16).  The five `Setup...Routes` functions are
not among the sources; by the spec each "registers its own endpoints against
the shared application instance", so each is recorded as a call that
returns. -/
def Setup : Run Unit := do
  invoke Func.SetupAuthRoutes (pure ())
  invoke Func.SetupAnimalRoutes (pure ())
  invoke Func.SetupHealthRoutes (pure ())
  invoke Func.SetupPaymentRoutes (pure ())
  invoke Func.SetupWhatsAppRoutes (pure ())
  libCall (Lib.appGet "/")

/-! ## `main.go`: main -/

/-- `main` (main.go, lines 43-83), for the iteration order `order` of the map
in `validateEnvVars`.  `log.Println(a, b)` separates its operands by a space.
In `app.Use(cors.New(cfg))` the argument is evaluated first: when `cors.New`
panics, `app.Use` is not reached and the process ends. -/
def main (order : List (String × String)) (w : World) : Run Unit := do
  libCall Lib.godotenvLoad
  match w.dotenvErr with
  | some _ => logLine "No .env file found, using system env"
  | none => pure ()
  invoke Func.validateEnvVars (validateEnvVars order w.env)
  let _ ← invoke Func.Connect (Connect w)
  libCall (Lib.fiberNew "ZapManejo v1.0")
  let mut allowedOrigins := Getenv w.env "ALLOWED_ORIGINS"
  if allowedOrigins = "" then
    allowedOrigins := "http://localhost:3000"
    logLine ("ALLOWED_ORIGINS not set, using default:" ++ " " ++ allowedOrigins)
  let cfg : CorsConfig :=
    { AllowOrigins := allowedOrigins
      AllowHeaders := "Origin, Content-Type, Accept, Authorization"
      AllowCredentials := true
      AllowMethods := "GET,POST,PUT,DELETE,OPTIONS" }
  libCall (Lib.corsNew cfg)
  match w.corsNewPanic cfg with
  | some msg => goPanic msg
  | none => pure ()
  libCall (Lib.appUse cfg)
  invoke Func.Setup Setup
  let mut port := Getenv w.env "PORT"
  if port = "" then
    port := "5000"
  logLine ("ZapManejo backend running on :" ++ port)
  libCall (Lib.appListen (":" ++ port))
  match w.listenRet with
  | none => (⟨[], none⟩ : Run Unit)
  | some (some err) => logFatal err
  | some none => logFatal "<nil>"

/-! ## Vocabulary of the statements -/

/-- A required key is missing when `os.Getenv` gives `""` for it. -/
def isMissing (env : Env) (kd : String × String) : Bool :=
  decide (Getenv env kd.1 = "")

/-- The entry of the fatal message for one key: `"\n  - KEY (description)"`. -/
def entryLine (kd : String × String) : String :=
  "\n  - " ++ kd.1 ++ " (" ++ kd.2 ++ ")"

/-- The header of the fatal message of `validateEnvVars`. -/
def fatalHeader : String :=
  "FATAL: Required environment variables not set:"

/-- The three required keys. -/
def requiredKeys : List String :=
  ["DATABASE_URL", "JWT_SECRET", "WHATSAPP_VERIFY_TOKEN"]

/-- An environment in which `DATABASE_URL` is set, `WHATSAPP_VERIFY_TOKEN` is
set to the empty string and every other variable is unset. -/
def envTwoMissing : Env := fun k =>
  if k = "DATABASE_URL" then some "postgres://farm"
  else if k = "WHATSAPP_VERIFY_TOKEN" then some ""
  else none

/-- An iteration order of the map other than the order in which it is written. -/
def orderReversed : List (String × String) :=
  requiredEnvs.reverse

/-- The events of a warning that is logged only when the operation failed. -/
def warnEvents (pfx : String) (o : Option String) : List Event :=
  match o with
  | none => []
  | some e => [Event.log (pfx ++ e)]

/-- The four pool settings of `Connect` (db.go, lines 34-37), as events. -/
def poolEvents : List Event :=
  [Event.lib (Lib.SetMaxIdleConns 10), Event.lib (Lib.SetMaxOpenConns 20),
   Event.lib (Lib.SetConnMaxLifetime Hour), Event.lib (Lib.SetConnMaxIdleTime (10 * Minute))]

/-- The configuration `main` hands to `cors.New` (main.go, lines 60-71). -/
def corsConfigOf (env : Env) : CorsConfig :=
  { AllowOrigins :=
      if Getenv env "ALLOWED_ORIGINS" = "" then "http://localhost:3000"
      else Getenv env "ALLOWED_ORIGINS"
    AllowHeaders := "Origin, Content-Type, Accept, Authorization"
    AllowCredentials := true
    AllowMethods := "GET,POST,PUT,DELETE,OPTIONS" }

/-- The events of lines 59-71 of main.go, as a function of the environment and
of what `cors.New` does. -/
def corsEvents (env : Env) (corsNewPanic : CorsConfig → Option String) : List Event :=
  (if Getenv env "ALLOWED_ORIGINS" = "" then
    [Event.log "ALLOWED_ORIGINS not set, using default: http://localhost:3000"]
  else [])
  ++ [Event.lib (Lib.corsNew (corsConfigOf env))]
  ++ match corsNewPanic (corsConfigOf env) with
     | some msg => [Event.panic msg]
     | none => [Event.lib (Lib.appUse (corsConfigOf env))]

/-- The guard of fiber's `cors.New` against a wildcard origin with credentials:
it panics when `AllowCredentials` is true and `AllowOrigins` is `"*"`.  The
sample worlds use it as their `corsNewPanic`. -/
def fiberCorsGuard (cfg : CorsConfig) : Option String :=
  if cfg.AllowCredentials = true ∧ cfg.AllowOrigins = "*" then
    some "[CORS] Insecure setup, 'AllowCredentials' is set to true, and 'AllowOrigins' is set to a wildcard."
  else none

/-- The events of the call `routes.Setup(app)`. -/
def setupEvents : List Event :=
  [Event.call Func.Setup, Event.call Func.SetupAuthRoutes, Event.call Func.SetupAnimalRoutes,
   Event.call Func.SetupHealthRoutes, Event.call Func.SetupPaymentRoutes,
   Event.call Func.SetupWhatsAppRoutes, Event.lib (Lib.appGet "/")]

/-- The port `main` listens on (main.go, lines 77-80). -/
def portOf (env : Env) : String :=
  if Getenv env "PORT" = "" then "5000" else Getenv env "PORT"

/-- The events of lines 81-82 of main.go. -/
def listenEvents (env : Env) (r : Option (Option String)) : List Event :=
  [Event.log ("ZapManejo backend running on :" ++ portOf env),
   Event.lib (Lib.appListen (":" ++ portOf env))]
  ++ match r with
     | none => []
     | some (some err) => [Event.fatal err]
     | some none => [Event.fatal "<nil>"]

/-- The events of `main` up to the return of `validateEnvVars`. -/
def preludeEvents (order : List (String × String)) (w : World) : List Event :=
  [Event.lib Lib.godotenvLoad]
  ++ (match w.dotenvErr with
      | some _ => [Event.log "No .env file found, using system env"]
      | none => [])
  ++ [Event.call Func.validateEnvVars]
  ++ (validateEnvVars order w.env).events

/-- The stages of startup. -/
inductive Stage where
  | validateEnv
  | openDatabase
  | getPoolHandle
  | ping
  | migrateSchema
  | createIndex (stmt : String)
  | seed
  | registerRoutes
  | listen
  deriving DecidableEq, Repr

/-- The stage an event starts, if any: the call of `validateEnvVars`,
`gorm.Open`, `DB.DB()`, `sqlDB.Ping()`, `DB.AutoMigrate`, each `DB.Exec`, the
call of `SeedLifetimeSlots`, the call of `routes.Setup`, `app.Listen`. -/
def stageOf : Event → Option Stage
  | Event.call Func.validateEnvVars => some Stage.validateEnv
  | Event.lib (Lib.gormOpen _) => some Stage.openDatabase
  | Event.lib Lib.dbDB => some Stage.getPoolHandle
  | Event.lib Lib.Ping => some Stage.ping
  | Event.lib (Lib.gormAutoMigrate _) => some Stage.migrateSchema
  | Event.lib (Lib.Exec stmt) => some (Stage.createIndex stmt)
  | Event.call Func.SeedLifetimeSlots => some Stage.seed
  | Event.call Func.Setup => some Stage.registerRoutes
  | Event.lib (Lib.appListen _) => some Stage.listen
  | _ => none

/-- The stage events of a trace, in order. -/
def stageTrace (events : List Event) : List Stage :=
  events.filterMap stageOf

/-- The startup sequence; "create indexes" is the two index statements in the
order of the source. -/
def startupStages : List Stage :=
  [Stage.validateEnv, Stage.openDatabase, Stage.getPoolHandle, Stage.ping,
   Stage.migrateSchema, Stage.createIndex sqlIdxBrinco, Stage.createIndex sqlIdxBirth,
   Stage.seed, Stage.registerRoutes, Stage.listen]

/-- A world in which every required variable is set and every operation
succeeds; the lifetime-slot table is empty and `app.Listen` keeps serving. -/
def worldAllGood : World where
  env := fun k =>
    if k = "DATABASE_URL" then some "postgres://farm"
    else if k = "JWT_SECRET" then some "s3cret"
    else if k = "WHATSAPP_VERIFY_TOKEN" then some "token"
    else none
  dotenvErr := none
  openErr := none
  poolErr := none
  pingErr := none
  migrateErr := none
  idxBrincoErr := none
  idxBirthErr := none
  slots := []
  seedSet := [⟨"calf"⟩, ⟨"heifer"⟩]
  seedErr := none
  corsNewPanic := fiberCorsGuard
  listenRet := none

/-- As `worldAllGood`, but the ping fails. -/
def worldPingFails : World :=
  { worldAllGood with pingErr := some "connection refused" }

/-- As `worldAllGood`, but `JWT_SECRET` is unset. -/
def worldKeyMissing : World :=
  { worldAllGood with env := envTwoMissing }

/-- Whether `line` starts with `p`. -/
def startsWith (p line : String) : Bool :=
  p.data.isPrefixOf line.data

/-- As `worldAllGood`, but `gorm.Open` fails. -/
def worldOpenFails : World :=
  { worldAllGood with openErr := some "invalid dsn" }

/-- As `worldAllGood`, but `DB.DB()` fails. -/
def worldPoolFails : World :=
  { worldAllGood with poolErr := some "no handle" }

/-- The prefix of the warning of migrate.go, line 29. -/
def warnBrinco : String :=
  "Warning: Failed to create idx_animals_brinco: "

/-- The prefix of the warning of migrate.go, line 34. -/
def warnBirth : String :=
  "Warning: Failed to create idx_animals_birth: "

/-- Whether an event is a logged line that starts with `pfx`. -/
def isLogWith (pfx : String) : Event → Bool
  | Event.log line => startsWith pfx line
  | _ => false

/-- As `worldAllGood`, but both index statements fail. -/
def worldIndexesFail : World :=
  { worldAllGood with
    idxBrincoErr := some "permission denied"
    idxBirthErr := some "permission denied" }

/-- As `worldAllGood`, but the first index statement fails. -/
def worldBrincoFails : World :=
  { worldAllGood with idxBrincoErr := some "permission denied" }

/-- The line of migrate.go, line 36. -/
def indexesCreatedLine : String :=
  "✓ Indexes created successfully"

/-- A fixed set of two lifetime-stage records. -/
def twoSlots : List LifetimeSlot :=
  [⟨"calf"⟩, ⟨"heifer"⟩]

/-- The pool settings in force: `none` for a setting that was never applied. -/
structure PoolPolicy where
  maxIdleConns : Option Int
  maxOpenConns : Option Int
  connMaxLifetime : Option Int
  connMaxIdleTime : Option Int
  deriving DecidableEq, Repr

/-- The effect of one event on the pool settings. -/
def applySetting (p : PoolPolicy) : Event → PoolPolicy
  | Event.lib (Lib.SetMaxIdleConns n) => { p with maxIdleConns := some n }
  | Event.lib (Lib.SetMaxOpenConns n) => { p with maxOpenConns := some n }
  | Event.lib (Lib.SetConnMaxLifetime d) => { p with connMaxLifetime := some d }
  | Event.lib (Lib.SetConnMaxIdleTime d) => { p with connMaxIdleTime := some d }
  | _ => p

/-- The pool settings applied by a trace. -/
def policyOf (events : List Event) : PoolPolicy :=
  events.foldl applySetting ⟨none, none, none, none⟩

/-- As `worldAllGood`, with another DSN and other variables set. -/
def worldOtherDsn : World :=
  { worldAllGood with
    env := fun k => if k = "PORT" then some "8080" else some "postgres://other"
    slots := [⟨"steer"⟩] }

/-- The start of the line `main` logs when it falls back to the default origin. -/
def fallbackPrefix : String :=
  "ALLOWED_ORIGINS not set"

/-- Whether an event is the call of `cors.New`. -/
def isCorsNew : Event → Bool
  | Event.lib (Lib.corsNew _) => true
  | _ => false

/-- Whether an event is the installation of a CORS policy by `app.Use`. -/
def isCorsInstall : Event → Bool
  | Event.lib (Lib.appUse _) => true
  | _ => false

/-- As `worldAllGood`, with `ALLOWED_ORIGINS` set to the wildcard. -/
def worldWildcardOrigins : World :=
  { worldAllGood with
    env := fun k => if k = "ALLOWED_ORIGINS" then some "*" else worldAllGood.env k }

/-- As `worldAllGood`, with `ALLOWED_ORIGINS` set. -/
def worldWithOrigins : World :=
  { worldAllGood with
    env := fun k => if k = "ALLOWED_ORIGINS" then some "https://app.zapmanejo.com"
      else worldAllGood.env k }

/-- Whether an event is neither a call of `cors.New`, nor an installation of a
CORS policy, nor a logged line starting with `fallbackPrefix`, nor the call of
`routes.Setup`. -/
def quietBefore : Event → Bool
  | Event.log line => !startsWith fallbackPrefix line
  | Event.lib (Lib.corsNew _) => false
  | Event.lib (Lib.appUse _) => false
  | Event.call Func.Setup => false
  | _ => true

/-! ## Lemmas on strings -/

theorem foldl_append_acc (l : List String) (acc : String) :
    l.foldl (fun r s => r ++ s) acc = acc ++ l.foldl (fun r s => r ++ s) "" := by
  induction l generalizing acc with
  | nil => simp
  | cons a l ih =>
    simp only [List.foldl_cons]
    rw [ih, ih ("" ++ a)]
    simp [String.append_assoc]

theorem join_cons (a : String) (l : List String) :
    String.join (a :: l) = a ++ String.join l := by
  show (a :: l).foldl (fun r s => r ++ s) "" = a ++ l.foldl (fun r s => r ++ s) ""
  rw [List.foldl_cons, foldl_append_acc, String.empty_append]

theorem Getenv_eq_empty_iff (env : Env) (k : String) :
    Getenv env k = "" ↔ (env k = none ∨ env k = some "") := by
  unfold Getenv
  cases env k <;> simp

theorem startsWith_append_self (p e : String) : startsWith p (p ++ e) = true := by
  simp [startsWith, String.data_append]

theorem startsWith_append_of_incomparable (p q e : String)
    (h1 : startsWith p q = false) (h2 : startsWith q p = false) :
    startsWith p (q ++ e) = false := by
  cases h : startsWith p (q ++ e) with
  | false => rfl
  | true =>
    exfalso
    simp only [startsWith, String.data_append, List.isPrefixOf_iff_prefix] at h
    have hq : q.data <+: q.data ++ e.data := List.prefix_append _ _
    rcases List.prefix_or_prefix_of_prefix h hq with h3 | h3
    · rw [← List.isPrefixOf_iff_prefix] at h3
      simp [startsWith, h3] at h1
    · rw [← List.isPrefixOf_iff_prefix] at h3
      simp [startsWith, h3] at h2

theorem append_ne_append_of_incomparable (p q e1 e2 : String)
    (h1 : startsWith p q = false) (h2 : startsWith q p = false) :
    p ++ e1 ≠ q ++ e2 := by
  intro h
  have h3 := startsWith_append_of_incomparable p q e2 h1 h2
  rw [← h, startsWith_append_self] at h3
  exact Bool.noConfusion h3

theorem ne_append_of_not_startsWith (p q e : String) (h : startsWith p q = false) :
    q ≠ p ++ e := by
  intro h3
  rw [h3, startsWith_append_self] at h
  exact Bool.noConfusion h

/-! ## Lemmas on `validateEnvVars` -/

theorem collectMissing_foldl (order : List (String × String)) (env : Env) (acc : List String) :
    order.foldl
      (fun missing kd =>
        if Getenv env kd.1 = "" then missing ++ [kd.1 ++ " (" ++ kd.2 ++ ")"] else missing)
      acc
    = acc ++ (order.filter (isMissing env)).map (fun kd => kd.1 ++ " (" ++ kd.2 ++ ")") := by
  induction order generalizing acc with
  | nil => simp
  | cons kd order ih =>
    simp only [List.foldl_cons]
    rw [ih]
    by_cases h : Getenv env kd.1 = ""
    · simp [isMissing, h, List.filter_cons]
    · simp [isMissing, h, List.filter_cons]

theorem collectMissing_eq (order : List (String × String)) (env : Env) :
    collectMissing order env
      = (order.filter (isMissing env)).map (fun kd => kd.1 ++ " (" ++ kd.2 ++ ")") := by
  unfold collectMissing
  rw [collectMissing_foldl]
  simp

theorem restOfMissing_foldl (l : List String) (acc : String) :
    l.foldl (fun result m => result ++ ("\n  - " ++ m)) acc
      = acc ++ String.join (l.map (fun m => "\n  - " ++ m)) := by
  induction l generalizing acc with
  | nil => simp [String.join]
  | cons a l ih =>
    simp only [List.foldl_cons, List.map_cons]
    rw [ih, join_cons, String.append_assoc]

theorem fatalMessage_eq (m0 : String) (rest : List String) :
    "FATAL: Required environment variables not set:\n  - " ++ m0 ++ restOfMissing (m0 :: rest)
      = fatalHeader ++ String.join ((m0 :: rest).map (fun m => "\n  - " ++ m)) := by
  have h : "FATAL: Required environment variables not set:\n  - " = fatalHeader ++ "\n  - " := by
    decide
  unfold restOfMissing
  rw [h, List.drop_one, List.tail_cons, restOfMissing_foldl, List.map_cons, join_cons]
  simp [String.append_assoc]

theorem validate_core (missing : List String) :
    (if h : 0 < missing.length then
        (logFatal ("FATAL: Required environment variables not set:\n  - " ++
          missing[0] ++ restOfMissing missing) : Run Unit)
      else
        logLine "✓ All required environment variables are set")
    = if missing = [] then
        ⟨[Event.log "✓ All required environment variables are set"], some ()⟩
      else
        ⟨[Event.fatal (fatalHeader ++ String.join (missing.map (fun m => "\n  - " ++ m)))],
          none⟩ := by
  cases missing with
  | nil => simp [logLine, emit]
  | cons m0 rest =>
    simp only [List.length_cons, Nat.zero_lt_succ, dite_true, List.getElem_cons_zero, logFatal]
    rw [fatalMessage_eq]
    simp

theorem validateEnvVars_eq (order : List (String × String)) (env : Env) :
    validateEnvVars order env =
      if (order.filter (isMissing env)) = [] then
        ⟨[Event.log "✓ All required environment variables are set"], some ()⟩
      else
        ⟨[Event.fatal (fatalHeader ++
            String.join ((order.filter (isMissing env)).map entryLine))], none⟩ := by
  unfold validateEnvVars
  simp only []
  rw [validate_core, collectMissing_eq]
  have hmap : (List.map (fun m => "\n  - " ++ m)
        (List.map (fun kd => kd.1 ++ " (" ++ kd.2 ++ ")") (order.filter (isMissing env))))
      = (order.filter (isMissing env)).map entryLine := by
    rw [List.map_map]
    apply List.map_congr_left
    intro kd _
    simp [entryLine, String.append_assoc]
  rw [hmap]
  by_cases h : order.filter (isMissing env) = [] <;> simp [h]

theorem exists_missing_iff (order : List (String × String)) (env : Env)
    (hperm : order.Perm requiredEnvs) :
    order.filter (isMissing env) ≠ [] ↔
      ∃ k ∈ requiredKeys, env k = none ∨ env k = some "" := by
  have h1 : order.filter (isMissing env) ≠ [] ↔ ∃ kd ∈ requiredEnvs, isMissing env kd = true := by
    rw [Ne, List.filter_eq_nil_iff]
    push_neg
    constructor
    · rintro ⟨kd, hm, hk⟩
      exact ⟨kd, hperm.mem_iff.mp hm, hk⟩
    · rintro ⟨kd, hm, hk⟩
      exact ⟨kd, hperm.mem_iff.mpr hm, hk⟩
  rw [h1]
  simp [requiredEnvs, requiredKeys, isMissing, Getenv_eq_empty_iff]

theorem entries_count (env : Env) (kd : String × String) (hkd : kd ∈ requiredEnvs) :
    ((requiredEnvs.filter (isMissing env)).map entryLine).count (entryLine kd)
      = if env kd.1 = none ∨ env kd.1 = some "" then 1 else 0 := by
  simp only [← Getenv_eq_empty_iff]
  simp only [requiredEnvs, List.mem_cons, List.mem_singleton, List.not_mem_nil, or_false] at hkd
  have e12 : entryLine ("DATABASE_URL", "PostgreSQL connection string")
      ≠ entryLine ("JWT_SECRET", "Secret key for JWT token signing") := by decide
  have e13 : entryLine ("DATABASE_URL", "PostgreSQL connection string")
      ≠ entryLine ("WHATSAPP_VERIFY_TOKEN", "Token for WhatsApp webhook verification") := by
    decide
  have e23 : entryLine ("JWT_SECRET", "Secret key for JWT token signing")
      ≠ entryLine ("WHATSAPP_VERIFY_TOKEN", "Token for WhatsApp webhook verification") := by
    decide
  rcases hkd with rfl | rfl | rfl <;>
    by_cases h1 : Getenv env "DATABASE_URL" = "" <;>
    by_cases h2 : Getenv env "JWT_SECRET" = "" <;>
    by_cases h3 : Getenv env "WHATSAPP_VERIFY_TOKEN" = "" <;>
    simp [requiredEnvs, isMissing, List.filter_cons, List.count_cons, h1, h2, h3,
      e12, e13, e23, e12.symm, e13.symm, e23.symm]

theorem validate_result_none_iff (order : List (String × String)) (env : Env)
    (hperm : order.Perm requiredEnvs) :
    (validateEnvVars order env).result = none ↔
      ∃ k ∈ requiredKeys, env k = none ∨ env k = some "" := by
  rw [← exists_missing_iff order env hperm, validateEnvVars_eq]
  by_cases hnil : order.filter (isMissing env) = [] <;> simp [hnil]

/-! ## Trace equations -/

theorem SeedLifetimeSlots_eq (seedSet : List LifetimeSlot) (insertErr : Option String)
    (table : List LifetimeSlot) :
    SeedLifetimeSlots seedSet insertErr table =
      if table.length = 0 then
        ⟨[Event.lib Lib.countSlots, Event.lib (Lib.createSlots seedSet)]
            ++ warnEvents "Warning: Failed to seed lifetime slots: " insertErr,
          some (match insertErr with
            | some _ => table
            | none => table ++ seedSet)⟩
      else ⟨[Event.lib Lib.countSlots], some table⟩ := by
  unfold SeedLifetimeSlots
  by_cases h : table.length = 0
  · cases insertErr <;>
      simp [h, bind, Run.andThen, pure, Run.ret, libCall, logLine, emit, warnEvents]
  · simp [h, bind, Run.andThen, pure, Run.ret, libCall, logLine, emit, warnEvents]

theorem AutoMigrate_fails (w : World) (err : String) (h : w.migrateErr = some err) :
    AutoMigrate w =
      ⟨[Event.log "Starting database migration...",
        Event.lib (Lib.gormAutoMigrate migratedModels),
        Event.fatal ("Failed to migrate database schema:" ++ err)], none⟩ := by
  unfold AutoMigrate
  simp [h, bind, Run.andThen, pure, Run.ret, libCall, logLine, emit, logFatal]

theorem AutoMigrate_ok (w : World) (h : w.migrateErr = none) :
    AutoMigrate w =
      ⟨[Event.log "Starting database migration...",
        Event.lib (Lib.gormAutoMigrate migratedModels),
        Event.log "✓ Database schema migrated successfully",
        Event.log "Creating indexes...",
        Event.lib (Lib.Exec sqlIdxBrinco)]
        ++ warnEvents "Warning: Failed to create idx_animals_brinco: " w.idxBrincoErr
        ++ [Event.lib (Lib.Exec sqlIdxBirth)]
        ++ warnEvents "Warning: Failed to create idx_animals_birth: " w.idxBirthErr
        ++ [Event.log "✓ Indexes created successfully",
            Event.log "Seeding lifetime slots...",
            Event.call Func.SeedLifetimeSlots]
        ++ (SeedLifetimeSlots w.seedSet w.seedErr w.slots).events
        ++ [Event.log "✓ Migration completed successfully"],
       (SeedLifetimeSlots w.seedSet w.seedErr w.slots).result⟩ := by
  unfold AutoMigrate
  rw [SeedLifetimeSlots_eq]
  cases h1 : w.idxBrincoErr <;> cases h2 : w.idxBirthErr <;>
    by_cases h3 : w.slots.length = 0 <;>
    simp [h, h3, bind, Run.andThen, pure, Run.ret, libCall, logLine, emit, logFatal,
      invoke, warnEvents]

theorem Connect_eq (w : World) :
    Connect w =
      if Getenv w.env "DATABASE_URL" = "" then
        ⟨[Event.fatal "DATABASE_URL not set"], none⟩
      else
        match w.openErr with
        | some e =>
          ⟨[Event.lib (Lib.gormOpen (Getenv w.env "DATABASE_URL")),
            Event.fatal ("Failed to connect to database:" ++ e)], none⟩
        | none =>
          match w.poolErr with
          | some e =>
            ⟨[Event.lib (Lib.gormOpen (Getenv w.env "DATABASE_URL")), Event.lib Lib.dbDB,
              Event.fatal ("Failed to get database instance:" ++ e)], none⟩
          | none =>
            match w.pingErr with
            | some e =>
              ⟨[Event.lib (Lib.gormOpen (Getenv w.env "DATABASE_URL")), Event.lib Lib.dbDB]
                ++ poolEvents
                ++ [Event.lib Lib.Ping, Event.fatal ("Database ping failed:" ++ e)], none⟩
            | none =>
              ⟨[Event.lib (Lib.gormOpen (Getenv w.env "DATABASE_URL")), Event.lib Lib.dbDB]
                ++ poolEvents
                ++ [Event.lib Lib.Ping,
                    Event.log "✓ Connected to DigitalOcean PostgreSQL with connection pooling",
                    Event.call Func.AutoMigrate]
                ++ (AutoMigrate w).events,
               (AutoMigrate w).result⟩ := by
  unfold Connect
  by_cases hd : Getenv w.env "DATABASE_URL" = ""
  · simp [hd, bind, Run.andThen, pure, Run.ret, libCall, logLine, emit, logFatal]
  · cases h1 : w.openErr <;> cases h2 : w.poolErr <;> cases h3 : w.pingErr <;>
      cases h4 : (AutoMigrate w).result <;>
      simp [hd, h4, bind, Run.andThen, pure, Run.ret, libCall, logLine, emit, logFatal,
        invoke, poolEvents]

theorem main_eq (order : List (String × String)) (w : World) :
    main order w =
      if (validateEnvVars order w.env).result = none then
        ⟨preludeEvents order w, none⟩
      else if (Connect w).result = none then
        ⟨preludeEvents order w ++ [Event.call Func.Connect] ++ (Connect w).events, none⟩
      else if w.corsNewPanic (corsConfigOf w.env) ≠ none then
        ⟨preludeEvents order w ++ [Event.call Func.Connect] ++ (Connect w).events
          ++ [Event.lib (Lib.fiberNew "ZapManejo v1.0")]
          ++ corsEvents w.env w.corsNewPanic, none⟩
      else
        ⟨preludeEvents order w ++ [Event.call Func.Connect] ++ (Connect w).events
          ++ [Event.lib (Lib.fiberNew "ZapManejo v1.0")]
          ++ corsEvents w.env w.corsNewPanic ++ setupEvents
          ++ listenEvents w.env w.listenRet, none⟩ := by
  unfold main
  cases hv : (validateEnvVars order w.env).result <;>
    cases hc : (Connect w).result <;>
    cases hdot : w.dotenvErr <;>
    by_cases ho : Getenv w.env "ALLOWED_ORIGINS" = "" <;>
    by_cases hp : Getenv w.env "PORT" = "" <;>
    cases hx : w.corsNewPanic (corsConfigOf w.env) <;>
    rcases hl : w.listenRet with _ | _ | _ <;>
    simp [corsConfigOf, ho] at hx <;>
    simp [hv, hc, ho, hp, hdot, hl, hx, bind, Run.andThen, pure, Run.ret, libCall, logLine,
        emit, logFatal, goPanic, invoke, preludeEvents, corsEvents, corsConfigOf, setupEvents,
        listenEvents, portOf, Setup]

/-! ## Stage traces -/

theorem stageTrace_append (xs ys : List Event) :
    stageTrace (xs ++ ys) = stageTrace xs ++ stageTrace ys := by
  simp [stageTrace, List.filterMap_append]

theorem stageTrace_warnEvents (pfx : String) (o : Option String) :
    stageTrace (warnEvents pfx o) = [] := by
  cases o <;> simp [stageTrace, warnEvents, stageOf]

theorem stageTrace_validateEnvVars (order : List (String × String)) (env : Env) :
    stageTrace (validateEnvVars order env).events = [] := by
  rw [validateEnvVars_eq]
  split <;> simp [stageTrace, stageOf]

theorem stageTrace_prelude (order : List (String × String)) (w : World) :
    stageTrace (preludeEvents order w) = [Stage.validateEnv] := by
  unfold preludeEvents
  rw [stageTrace_append, stageTrace_append, stageTrace_append, stageTrace_validateEnvVars]
  cases w.dotenvErr <;> simp [stageTrace, stageOf]

theorem stageTrace_SeedLifetimeSlots (seedSet : List LifetimeSlot) (insertErr : Option String)
    (table : List LifetimeSlot) :
    stageTrace (SeedLifetimeSlots seedSet insertErr table).events = [] := by
  rw [SeedLifetimeSlots_eq]
  split
  · simp only [stageTrace_append, stageTrace_warnEvents]
    simp [stageTrace, stageOf]
  · simp [stageTrace, stageOf]

theorem SeedLifetimeSlots_returns (seedSet : List LifetimeSlot) (insertErr : Option String)
    (table : List LifetimeSlot) :
    (SeedLifetimeSlots seedSet insertErr table).result ≠ none := by
  rw [SeedLifetimeSlots_eq]
  split <;> simp

theorem stageTrace_AutoMigrate (w : World) :
    stageTrace (AutoMigrate w).events =
      if w.migrateErr = none then
        [Stage.migrateSchema, Stage.createIndex sqlIdxBrinco, Stage.createIndex sqlIdxBirth,
         Stage.seed]
      else [Stage.migrateSchema] := by
  cases h : w.migrateErr with
  | none =>
    rw [AutoMigrate_ok w h]
    simp only [stageTrace_append, stageTrace_warnEvents, stageTrace_SeedLifetimeSlots]
    simp [stageTrace, stageOf]
  | some err =>
    rw [AutoMigrate_fails w err h]
    simp [stageTrace, stageOf]

theorem AutoMigrate_result (w : World) :
    (AutoMigrate w).result = none ↔ w.migrateErr ≠ none := by
  cases h : w.migrateErr with
  | none =>
    rw [AutoMigrate_ok w h]
    simpa using SeedLifetimeSlots_returns w.seedSet w.seedErr w.slots
  | some err =>
    rw [AutoMigrate_fails w err h]
    simp

theorem stageTrace_poolEvents : stageTrace poolEvents = [] := by
  simp [stageTrace, poolEvents, stageOf]

theorem stageTrace_Connect (w : World) :
    stageTrace (Connect w).events =
      if Getenv w.env "DATABASE_URL" = "" then []
      else if w.openErr ≠ none then [Stage.openDatabase]
      else if w.poolErr ≠ none then [Stage.openDatabase, Stage.getPoolHandle]
      else if w.pingErr ≠ none then [Stage.openDatabase, Stage.getPoolHandle, Stage.ping]
      else [Stage.openDatabase, Stage.getPoolHandle, Stage.ping]
        ++ stageTrace (AutoMigrate w).events := by
  rw [Connect_eq]
  by_cases hd : Getenv w.env "DATABASE_URL" = ""
  · simp [hd, stageTrace, stageOf]
  · cases h1 : w.openErr <;> cases h2 : w.poolErr <;> cases h3 : w.pingErr <;>
      simp only [hd, if_false, stageTrace_append, stageTrace_poolEvents] <;>
      simp [stageTrace, stageOf]

theorem Connect_result (w : World) :
    (Connect w).result = none ↔
      (Getenv w.env "DATABASE_URL" = "" ∨ w.openErr ≠ none ∨ w.poolErr ≠ none
        ∨ w.pingErr ≠ none ∨ w.migrateErr ≠ none) := by
  rw [Connect_eq]
  by_cases hd : Getenv w.env "DATABASE_URL" = ""
  · simp [hd]
  · cases h1 : w.openErr <;> cases h2 : w.poolErr <;> cases h3 : w.pingErr <;>
      simp [hd, AutoMigrate_result]

theorem stageTrace_corsEvents (w : World) :
    stageTrace (corsEvents w.env w.corsNewPanic) = [] := by
  unfold corsEvents
  by_cases ho : Getenv w.env "ALLOWED_ORIGINS" = "" <;>
    cases w.corsNewPanic (corsConfigOf w.env) <;>
    simp [stageTrace, stageOf, ho]

theorem stageTrace_tail (w : World) :
    stageTrace (setupEvents ++ listenEvents w.env w.listenRet)
      = [Stage.registerRoutes, Stage.listen] := by
  rcases hl : w.listenRet with _ | _ | _ <;>
    simp [stageTrace, stageOf, setupEvents, listenEvents]

theorem stageTrace_main (order : List (String × String)) (w : World) :
    stageTrace (main order w).events =
      if (validateEnvVars order w.env).result = none then [Stage.validateEnv]
      else if Getenv w.env "DATABASE_URL" = "" then [Stage.validateEnv]
      else if w.openErr ≠ none then startupStages.take 2
      else if w.poolErr ≠ none then startupStages.take 3
      else if w.pingErr ≠ none then startupStages.take 4
      else if w.migrateErr ≠ none then startupStages.take 5
      else if w.corsNewPanic (corsConfigOf w.env) ≠ none then startupStages.take 8
      else startupStages := by
  rw [main_eq]
  by_cases hv : (validateEnvVars order w.env).result = none
  · simp [hv, stageTrace_prelude]
  · by_cases hc : (Connect w).result = none
    · simp only [hv, hc, if_true, if_false, stageTrace_append, stageTrace_prelude,
        stageTrace_Connect, stageTrace_AutoMigrate]
      rw [Connect_result] at hc
      by_cases hd : Getenv w.env "DATABASE_URL" = ""
      · simp [hd, stageTrace, stageOf]
      · cases h1 : w.openErr <;> cases h2 : w.poolErr <;> cases h3 : w.pingErr <;>
          cases h4 : w.migrateErr <;>
          simp [hd, h1, h2, h3, h4, stageTrace, stageOf, startupStages] at hc ⊢
    · have hc2 := hc
      rw [Connect_result] at hc2
      push_neg at hc2
      obtain ⟨hd, h1, h2, h3, h4⟩ := hc2
      have htail := stageTrace_tail w
      by_cases hx : w.corsNewPanic (corsConfigOf w.env) = none
      · simp only [hv, hc, hx, ne_eq, not_true, if_false, List.append_assoc,
          stageTrace_append, stageTrace_prelude, stageTrace_Connect, stageTrace_AutoMigrate,
          stageTrace_corsEvents, htail]
        simp [hd, h1, h2, h3, h4, stageTrace, stageOf, startupStages]
      · simp only [hv, hc, hx, ne_eq, not_false_eq_true, if_true, if_false,
          List.append_assoc, stageTrace_append, stageTrace_prelude, stageTrace_Connect,
          stageTrace_AutoMigrate, stageTrace_corsEvents]
        simp [hd, h1, h2, h3, h4, stageTrace, stageOf, startupStages]

/-! ## C1 -/

/-- C1. For every environment and every iteration order of the map,
`validateEnvVars` exits fatally if and only if one of `DATABASE_URL`,
`JWT_SECRET`, `WHATSAPP_VERIFY_TOKEN` is unset or empty.  When it does, its only
event is one fatal message: the header followed by the entries
`"\n  - KEY (description)"` of the missing keys in iteration order; these
entries are a permutation of the entries of the missing keys, and the entry of
a required key occurs once when the key is missing and not at all when it is
set.  When it does not, no fatal message is written. -/
theorem validateEnvVars_fatal_iff_missing (order : List (String × String)) (env : Env)
    (hperm : order.Perm requiredEnvs) :
    ((validateEnvVars order env).result = none ↔
        ∃ k ∈ requiredKeys, env k = none ∨ env k = some "")
    ∧ ((validateEnvVars order env).result = none →
        (validateEnvVars order env).events =
          [Event.fatal (fatalHeader ++
            String.join ((order.filter (isMissing env)).map entryLine))])
    ∧ ((validateEnvVars order env).result ≠ none →
        ∀ msg, Event.fatal msg ∉ (validateEnvVars order env).events)
    ∧ ((order.filter (isMissing env)).map entryLine).Perm
        ((requiredEnvs.filter (isMissing env)).map entryLine)
    ∧ (∀ kd ∈ requiredEnvs,
        ((order.filter (isMissing env)).map entryLine).count (entryLine kd)
          = if env kd.1 = none ∨ env kd.1 = some "" then 1 else 0) := by
  have hiff := exists_missing_iff order env hperm
  have hp : ((order.filter (isMissing env)).map entryLine).Perm
      ((requiredEnvs.filter (isMissing env)).map entryLine) :=
    (hperm.filter _).map _
  rw [validateEnvVars_eq]
  by_cases hnil : order.filter (isMissing env) = []
  · have hno : ¬ ∃ k ∈ requiredKeys, env k = none ∨ env k = some "" := by
      rw [← hiff]; simp [hnil]
    refine ⟨?_, ?_, ?_, hp, ?_⟩
    · simp [hnil, hno]
    · simp [hnil]
    · simp [hnil]
    · intro kd hkd
      rw [hp.count_eq, entries_count env kd hkd]
  · have hyes : ∃ k ∈ requiredKeys, env k = none ∨ env k = some "" := hiff.mp hnil
    refine ⟨?_, ?_, ?_, hp, ?_⟩
    · simp [hnil, hyes]
    · simp [hnil]
    · simp [hnil]
    · intro kd hkd
      rw [hp.count_eq, entries_count env kd hkd]

/-- Witness of C1: with the map iterated in reverse order, `JWT_SECRET` unset
and `WHATSAPP_VERIFY_TOKEN` empty, both keys are listed. -/
theorem validateEnvVars_fatal_iff_missing_witness :
    orderReversed.Perm requiredEnvs
    ∧ (validateEnvVars orderReversed envTwoMissing).result = none
    ∧ (validateEnvVars orderReversed envTwoMissing).events =
        [Event.fatal ("FATAL: Required environment variables not set:"
          ++ "\n  - WHATSAPP_VERIFY_TOKEN (Token for WhatsApp webhook verification)"
          ++ "\n  - JWT_SECRET (Secret key for JWT token signing)")] := by
  have hperm : orderReversed.Perm requiredEnvs := List.reverse_perm _
  have h := validateEnvVars_fatal_iff_missing orderReversed envTwoMissing hperm
  have hres : (validateEnvVars orderReversed envTwoMissing).result = none :=
    h.1.mpr ⟨"JWT_SECRET", by decide, Or.inl (by decide)⟩
  refine ⟨hperm, hres, ?_⟩
  rw [h.2.1 hres]
  simp [orderReversed, requiredEnvs, isMissing, envTwoMissing, Getenv, List.filter_cons,
    join_cons, String.join, entryLine, fatalHeader, String.append_assoc]

/-! ## C2 -/

theorem gormOpen_not_mem_prelude (order : List (String × String)) (w : World) (dsn : String) :
    Event.lib (Lib.gormOpen dsn) ∉ preludeEvents order w := by
  unfold preludeEvents
  rw [validateEnvVars_eq]
  by_cases hnil : order.filter (isMissing w.env) = [] <;>
    cases w.dotenvErr <;> simp [hnil]

/-- C2. For every iteration order and every world, the stage events of `main`
are a prefix of the startup sequence: validate env, open database, get pool
handle, ping, migrate schema, create indexes (the two statements), seed,
register routes, listen.  After a failed env validation the only stage event
is the validation; when the database open, the pool-handle retrieval, the ping
or the schema migration fails, no stage after the failed one occurs; when
`cors.New` panics, no stage after the seeding occurs.  When a required key is
missing, `gorm.Open` is never called.  When nothing fails and `cors.New`
returns, the stage events are the whole sequence. -/
theorem main_stages_in_order (order : List (String × String)) (w : World) :
    stageTrace (main order w).events <+: startupStages
    ∧ ((validateEnvVars order w.env).result = none →
        stageTrace (main order w).events = [Stage.validateEnv])
    ∧ (w.openErr ≠ none → stageTrace (main order w).events <+: startupStages.take 2)
    ∧ (w.poolErr ≠ none → stageTrace (main order w).events <+: startupStages.take 3)
    ∧ (w.pingErr ≠ none → stageTrace (main order w).events <+: startupStages.take 4)
    ∧ (w.migrateErr ≠ none → stageTrace (main order w).events <+: startupStages.take 5)
    ∧ (w.corsNewPanic (corsConfigOf w.env) ≠ none →
        stageTrace (main order w).events <+: startupStages.take 8)
    ∧ (order.Perm requiredEnvs →
        (∃ k ∈ requiredKeys, w.env k = none ∨ w.env k = some "") →
        ∀ dsn, Event.lib (Lib.gormOpen dsn) ∉ (main order w).events)
    ∧ ((validateEnvVars order w.env).result ≠ none → Getenv w.env "DATABASE_URL" ≠ "" →
        w.openErr = none → w.poolErr = none → w.pingErr = none → w.migrateErr = none →
        w.corsNewPanic (corsConfigOf w.env) = none →
        stageTrace (main order w).events = startupStages) := by
  have p12 : startupStages.take 1 <+: startupStages.take 2 := by decide
  have p13 : startupStages.take 1 <+: startupStages.take 3 := by decide
  have p14 : startupStages.take 1 <+: startupStages.take 4 := by decide
  have p15 : startupStages.take 1 <+: startupStages.take 5 := by decide
  have p23 : startupStages.take 2 <+: startupStages.take 3 := by decide
  have p24 : startupStages.take 2 <+: startupStages.take 4 := by decide
  have p25 : startupStages.take 2 <+: startupStages.take 5 := by decide
  have p34 : startupStages.take 3 <+: startupStages.take 4 := by decide
  have p35 : startupStages.take 3 <+: startupStages.take 5 := by decide
  have p45 : startupStages.take 4 <+: startupStages.take 5 := by decide
  have p18 : startupStages.take 1 <+: startupStages.take 8 := by decide
  have p28 : startupStages.take 2 <+: startupStages.take 8 := by decide
  have p38 : startupStages.take 3 <+: startupStages.take 8 := by decide
  have p48 : startupStages.take 4 <+: startupStages.take 8 := by decide
  have p58 : startupStages.take 5 <+: startupStages.take 8 := by decide
  have h1 : [Stage.validateEnv] = startupStages.take 1 := rfl
  refine ⟨?_, ?_, ?_, ?_, ?_, ?_, ?_, ?_, ?_⟩
  · rw [stageTrace_main, h1]
    split_ifs <;> first | exact List.take_prefix _ _ | exact List.prefix_refl _
  · intro hv
    rw [stageTrace_main, if_pos hv]
  · intro h
    rw [stageTrace_main, h1]
    split_ifs <;> first | exact List.prefix_refl _ | assumption
  · intro h
    rw [stageTrace_main, h1]
    split_ifs <;> first | exact List.prefix_refl _ | assumption
  · intro h
    rw [stageTrace_main, h1]
    split_ifs <;> first | exact List.prefix_refl _ | assumption
  · intro h
    rw [stageTrace_main, h1]
    split_ifs <;> first | exact List.prefix_refl _ | assumption
  · intro h
    rw [stageTrace_main, h1]
    split_ifs <;> first | exact List.prefix_refl _ | assumption
  · intro hperm hmiss dsn
    have hfail : (validateEnvVars order w.env).result = none :=
      (validate_result_none_iff order w.env hperm).mpr hmiss
    rw [main_eq, if_pos hfail]
    exact gormOpen_not_mem_prelude order w dsn
  · intro hv hd h1 h2 h3 h4 h5
    rw [stageTrace_main]
    simp [hv, hd, h1, h2, h3, h4, h5]

/-- Witness of C2: with `JWT_SECRET` unset the database is never opened, and
with a failing ping the stage events stop at the ping. -/
theorem main_stages_in_order_witness :
    (requiredEnvs.Perm requiredEnvs
      ∧ (∃ k ∈ requiredKeys, worldKeyMissing.env k = none ∨ worldKeyMissing.env k = some "")
      ∧ ∀ dsn, Event.lib (Lib.gormOpen dsn) ∉ (main requiredEnvs worldKeyMissing).events)
    ∧ (worldPingFails.pingErr ≠ none
      ∧ stageTrace (main requiredEnvs worldPingFails).events <+: startupStages.take 4) :=
  ⟨⟨List.Perm.refl _, ⟨"JWT_SECRET", by decide, Or.inl (by decide)⟩,
      (main_stages_in_order requiredEnvs worldKeyMissing).2.2.2.2.2.2.2.1 (List.Perm.refl _)
        ⟨"JWT_SECRET", by decide, Or.inl (by decide)⟩⟩,
   ⟨by decide, (main_stages_in_order requiredEnvs worldPingFails).2.2.2.2.1 (by decide)⟩⟩

/-! ## C3 -/

/-- C3. In `Connect`, with a non-empty DSN: when `gorm.Open` fails the run ends
in the fatal message `"Failed to connect to database:"` followed by the error;
when `DB.DB()` fails, in `"Failed to get database instance:"` followed by the
error; when the ping fails, in `"Database ping failed:"` followed by the error.
The three prefixes are pairwise distinct, and no message of one stage equals a
message of another stage, whatever the error texts.  `AutoMigrate` is called
exactly when the DSN is non-empty and the three stages succeeded. -/
theorem Connect_failure_messages (w : World) :
    (Getenv w.env "DATABASE_URL" ≠ "" → ∀ e, w.openErr = some e →
      Connect w =
        ⟨[Event.lib (Lib.gormOpen (Getenv w.env "DATABASE_URL")),
          Event.fatal ("Failed to connect to database:" ++ e)], none⟩)
    ∧ (Getenv w.env "DATABASE_URL" ≠ "" → ∀ e, w.openErr = none → w.poolErr = some e →
      Connect w =
        ⟨[Event.lib (Lib.gormOpen (Getenv w.env "DATABASE_URL")), Event.lib Lib.dbDB,
          Event.fatal ("Failed to get database instance:" ++ e)], none⟩)
    ∧ (Getenv w.env "DATABASE_URL" ≠ "" → ∀ e, w.openErr = none → w.poolErr = none →
      w.pingErr = some e →
      Connect w =
        ⟨[Event.lib (Lib.gormOpen (Getenv w.env "DATABASE_URL")), Event.lib Lib.dbDB,
          Event.lib (Lib.SetMaxIdleConns 10), Event.lib (Lib.SetMaxOpenConns 20),
          Event.lib (Lib.SetConnMaxLifetime Hour),
          Event.lib (Lib.SetConnMaxIdleTime (10 * Minute)),
          Event.lib Lib.Ping, Event.fatal ("Database ping failed:" ++ e)], none⟩)
    ∧ ("Failed to connect to database:" ≠ "Failed to get database instance:"
      ∧ "Failed to connect to database:" ≠ "Database ping failed:"
      ∧ "Failed to get database instance:" ≠ "Database ping failed:")
    ∧ (∀ e1 e2 : String,
        "Failed to connect to database:" ++ e1 ≠ "Failed to get database instance:" ++ e2
        ∧ "Failed to connect to database:" ++ e1 ≠ "Database ping failed:" ++ e2
        ∧ "Failed to get database instance:" ++ e1 ≠ "Database ping failed:" ++ e2)
    ∧ (Event.call Func.AutoMigrate ∈ (Connect w).events ↔
        (Getenv w.env "DATABASE_URL" ≠ "" ∧ w.openErr = none ∧ w.poolErr = none
          ∧ w.pingErr = none)) := by
  refine ⟨?_, ?_, ?_, ?_, ?_, ?_⟩
  · intro hd e h1
    rw [Connect_eq]
    simp [hd, h1]
  · intro hd e h1 h2
    rw [Connect_eq]
    simp [hd, h1, h2]
  · intro hd e h1 h2 h3
    rw [Connect_eq]
    simp [hd, h1, h2, h3, poolEvents]
  · decide
  · intro e1 e2
    exact ⟨append_ne_append_of_incomparable _ _ e1 e2 (by decide) (by decide),
      append_ne_append_of_incomparable _ _ e1 e2 (by decide) (by decide),
      append_ne_append_of_incomparable _ _ e1 e2 (by decide) (by decide)⟩
  · rw [Connect_eq]
    by_cases hd : Getenv w.env "DATABASE_URL" = ""
    · simp [hd]
    · cases h1 : w.openErr <;> cases h2 : w.poolErr <;> cases h3 : w.pingErr <;>
        simp [hd, poolEvents]

/-- Witness of C3: the runs of `Connect` in which the open, the pool-handle
retrieval and the ping fail. -/
theorem Connect_failure_messages_witness :
    (Getenv worldOpenFails.env "DATABASE_URL" ≠ "" ∧ worldOpenFails.openErr = some "invalid dsn"
      ∧ Connect worldOpenFails =
        ⟨[Event.lib (Lib.gormOpen (Getenv worldOpenFails.env "DATABASE_URL")),
          Event.fatal ("Failed to connect to database:" ++ "invalid dsn")], none⟩)
    ∧ (Getenv worldPoolFails.env "DATABASE_URL" ≠ "" ∧ worldPoolFails.openErr = none
      ∧ worldPoolFails.poolErr = some "no handle"
      ∧ Connect worldPoolFails =
        ⟨[Event.lib (Lib.gormOpen (Getenv worldPoolFails.env "DATABASE_URL")),
          Event.lib Lib.dbDB,
          Event.fatal ("Failed to get database instance:" ++ "no handle")], none⟩)
    ∧ (Getenv worldPingFails.env "DATABASE_URL" ≠ "" ∧ worldPingFails.openErr = none
      ∧ worldPingFails.poolErr = none ∧ worldPingFails.pingErr = some "connection refused"
      ∧ Connect worldPingFails =
        ⟨[Event.lib (Lib.gormOpen (Getenv worldPingFails.env "DATABASE_URL")),
          Event.lib Lib.dbDB,
          Event.lib (Lib.SetMaxIdleConns 10), Event.lib (Lib.SetMaxOpenConns 20),
          Event.lib (Lib.SetConnMaxLifetime Hour),
          Event.lib (Lib.SetConnMaxIdleTime (10 * Minute)),
          Event.lib Lib.Ping,
          Event.fatal ("Database ping failed:" ++ "connection refused")], none⟩) :=
  ⟨⟨by decide, rfl,
      (Connect_failure_messages worldOpenFails).1 (by decide) "invalid dsn" rfl⟩,
   ⟨by decide, rfl, rfl,
      (Connect_failure_messages worldPoolFails).2.1 (by decide) "no handle" rfl rfl⟩,
   ⟨by decide, rfl, rfl, rfl,
      (Connect_failure_messages worldPingFails).2.2.1 (by decide) "connection refused"
        rfl rfl rfl⟩⟩

/-! ## C4 -/

theorem isLogWith_warnBrinco_seed (seedSet : List LifetimeSlot) (insertErr : Option String)
    (table : List LifetimeSlot) :
    ∀ e ∈ (SeedLifetimeSlots seedSet insertErr table).events,
      isLogWith warnBrinco e = false ∧ isLogWith warnBirth e = false
        ∧ (∀ msg, e ≠ Event.fatal msg) ∧ (∀ stmt, e ≠ Event.lib (Lib.Exec stmt))
        ∧ e ≠ Event.call Func.SeedLifetimeSlots := by
  have hb : ∀ e, startsWith warnBrinco ("Warning: Failed to seed lifetime slots: " ++ e) = false :=
    fun e => startsWith_append_of_incomparable _ _ e (by decide) (by decide)
  have hi : ∀ e, startsWith warnBirth ("Warning: Failed to seed lifetime slots: " ++ e) = false :=
    fun e => startsWith_append_of_incomparable _ _ e (by decide) (by decide)
  rw [SeedLifetimeSlots_eq]
  by_cases h : table.length = 0 <;> cases insertErr <;>
    simp [h, warnEvents, isLogWith, hb, hi]

/-- C4. In `AutoMigrate`, once the structural migration has succeeded, for
every outcome of the two index statements: the run returns and writes no fatal
message; a warning for `idx_animals_brinco` is logged once when its statement
failed and not at all when it succeeded, and likewise for `idx_animals_birth`;
each of the two statements is executed exactly once; and `SeedLifetimeSlots`
is called exactly once, after both statements and their warnings. -/
theorem AutoMigrate_index_failures_are_warnings (w : World) (hm : w.migrateErr = none) :
    (AutoMigrate w).result ≠ none
    ∧ (∀ msg, Event.fatal msg ∉ (AutoMigrate w).events)
    ∧ (AutoMigrate w).events.countP (isLogWith warnBrinco)
        = (if w.idxBrincoErr = none then 0 else 1)
    ∧ (AutoMigrate w).events.countP (isLogWith warnBirth)
        = (if w.idxBirthErr = none then 0 else 1)
    ∧ (∀ e, w.idxBrincoErr = some e → Event.log (warnBrinco ++ e) ∈ (AutoMigrate w).events)
    ∧ (∀ e, w.idxBirthErr = some e → Event.log (warnBirth ++ e) ∈ (AutoMigrate w).events)
    ∧ (AutoMigrate w).events.count (Event.lib (Lib.Exec sqlIdxBrinco)) = 1
    ∧ (AutoMigrate w).events.count (Event.lib (Lib.Exec sqlIdxBirth)) = 1
    ∧ (AutoMigrate w).events.count (Event.call Func.SeedLifetimeSlots) = 1
    ∧ (∃ before after,
        (AutoMigrate w).events = before ++ Event.call Func.SeedLifetimeSlots :: after
        ∧ Event.lib (Lib.Exec sqlIdxBrinco) ∈ before
        ∧ Event.lib (Lib.Exec sqlIdxBirth) ∈ before
        ∧ before.countP (isLogWith warnBrinco) = (if w.idxBrincoErr = none then 0 else 1)
        ∧ before.countP (isLogWith warnBirth) = (if w.idxBirthErr = none then 0 else 1)) := by
  have hseed := isLogWith_warnBrinco_seed w.seedSet w.seedErr w.slots
  have hret := SeedLifetimeSlots_returns w.seedSet w.seedErr w.slots
  have hbb : ∀ e, startsWith warnBrinco
      ("Warning: Failed to create idx_animals_brinco: " ++ e) = true :=
    fun e => startsWith_append_self warnBrinco e
  have hii : ∀ e, startsWith warnBirth
      ("Warning: Failed to create idx_animals_birth: " ++ e) = true :=
    fun e => startsWith_append_self warnBirth e
  have hbi : ∀ e, startsWith warnBrinco
      ("Warning: Failed to create idx_animals_birth: " ++ e) = false :=
    fun e => startsWith_append_of_incomparable warnBrinco warnBirth e (by decide) (by decide)
  have hib : ∀ e, startsWith warnBirth
      ("Warning: Failed to create idx_animals_brinco: " ++ e) = false :=
    fun e => startsWith_append_of_incomparable warnBirth warnBrinco e (by decide) (by decide)
  have hcb : List.countP (isLogWith warnBrinco)
      (SeedLifetimeSlots w.seedSet w.seedErr w.slots).events = 0 := by
    rw [List.countP_eq_zero]
    intro e he
    simp [(hseed e he).1]
  have hci : List.countP (isLogWith warnBirth)
      (SeedLifetimeSlots w.seedSet w.seedErr w.slots).events = 0 := by
    rw [List.countP_eq_zero]
    intro e he
    simp [(hseed e he).2.1]
  have hcx1 : List.count (Event.lib (Lib.Exec sqlIdxBrinco))
      (SeedLifetimeSlots w.seedSet w.seedErr w.slots).events = 0 := by
    rw [List.count_eq_zero]
    intro he
    exact (hseed _ he).2.2.2.1 _ rfl
  have hcx2 : List.count (Event.lib (Lib.Exec sqlIdxBirth))
      (SeedLifetimeSlots w.seedSet w.seedErr w.slots).events = 0 := by
    rw [List.count_eq_zero]
    intro he
    exact (hseed _ he).2.2.2.1 _ rfl
  have hcs : List.count (Event.call Func.SeedLifetimeSlots)
      (SeedLifetimeSlots w.seedSet w.seedErr w.slots).events = 0 := by
    rw [List.count_eq_zero]
    intro he
    exact (hseed _ he).2.2.2.2 rfl
  have hnf : ∀ msg, Event.fatal msg ∉ (SeedLifetimeSlots w.seedSet w.seedErr w.slots).events :=
    fun msg he => (hseed _ he).2.2.1 msg rfl
  have hsql : sqlIdxBrinco ≠ sqlIdxBirth := by decide
  rw [AutoMigrate_ok w hm]
  refine ⟨hret, ?_, ?_, ?_, ?_, ?_, ?_, ?_, ?_, ?_⟩
  · intro msg
    cases w.idxBrincoErr <;> cases w.idxBirthErr <;> simp [warnEvents, hnf]
  · cases w.idxBrincoErr <;> cases w.idxBirthErr <;>
      simp +decide [warnEvents, List.countP_append, List.countP_cons, isLogWith, hcb,
        hbb, hbi]
  · cases w.idxBrincoErr <;> cases w.idxBirthErr <;>
      simp +decide [warnEvents, List.countP_append, List.countP_cons, isLogWith, hci,
        hii, hib]
  · intro e he
    simp [he, warnEvents, warnBrinco]
  · intro e he
    simp [he, warnEvents, warnBirth]
  · cases w.idxBrincoErr <;> cases w.idxBirthErr <;>
      simp [warnEvents, List.count_append, List.count_cons, hcx1, hsql, hsql.symm]
  · cases w.idxBrincoErr <;> cases w.idxBirthErr <;>
      simp [warnEvents, List.count_append, List.count_cons, hcx2, hsql, hsql.symm]
  · cases w.idxBrincoErr <;> cases w.idxBirthErr <;>
      simp [warnEvents, List.count_append, List.count_cons, hcs]
  · refine ⟨[Event.log "Starting database migration...",
        Event.lib (Lib.gormAutoMigrate migratedModels),
        Event.log "✓ Database schema migrated successfully",
        Event.log "Creating indexes...",
        Event.lib (Lib.Exec sqlIdxBrinco)]
        ++ warnEvents "Warning: Failed to create idx_animals_brinco: " w.idxBrincoErr
        ++ [Event.lib (Lib.Exec sqlIdxBirth)]
        ++ warnEvents "Warning: Failed to create idx_animals_birth: " w.idxBirthErr
        ++ [Event.log "✓ Indexes created successfully",
            Event.log "Seeding lifetime slots..."],
      (SeedLifetimeSlots w.seedSet w.seedErr w.slots).events
        ++ [Event.log "✓ Migration completed successfully"], ?_, ?_, ?_, ?_, ?_⟩
    · simp
    · simp
    · simp
    · cases w.idxBrincoErr <;> cases w.idxBirthErr <;>
        simp +decide [warnEvents, List.countP_append, List.countP_cons, isLogWith, hbb, hbi]
    · cases w.idxBrincoErr <;> cases w.idxBirthErr <;>
        simp +decide [warnEvents, List.countP_append, List.countP_cons, isLogWith, hii, hib]

/-- Witness of C4: both index statements fail, the run still returns, each
warning is logged once and the seeding is called once. -/
theorem AutoMigrate_index_failures_are_warnings_witness :
    worldIndexesFail.migrateErr = none
    ∧ (AutoMigrate worldIndexesFail).result ≠ none
    ∧ (AutoMigrate worldIndexesFail).events.countP (isLogWith warnBrinco) = 1
    ∧ (AutoMigrate worldIndexesFail).events.countP (isLogWith warnBirth) = 1
    ∧ (AutoMigrate worldIndexesFail).events.count (Event.call Func.SeedLifetimeSlots) = 1 :=
  ⟨rfl,
   (AutoMigrate_index_failures_are_warnings worldIndexesFail rfl).1,
   (AutoMigrate_index_failures_are_warnings worldIndexesFail rfl).2.2.1,
   (AutoMigrate_index_failures_are_warnings worldIndexesFail rfl).2.2.2.1,
   (AutoMigrate_index_failures_are_warnings worldIndexesFail rfl).2.2.2.2.2.2.2.2.1⟩

/-! ## C10 -/

/-- C10. In `AutoMigrate`, the line "✓ Indexes created successfully" is logged
in every run in which the structural migration succeeded, whatever the outcome
of the two index statements: when the statement for `idx_animals_brinco` (or
for `idx_animals_birth`) fails, its warning and the success line are both
logged, and there is a run in which both statements fail and both warnings and
the success line are logged. -/
theorem AutoMigrate_success_line_unconditional :
    (∀ w : World, w.migrateErr = none →
      Event.log indexesCreatedLine ∈ (AutoMigrate w).events)
    ∧ (∀ (w : World) (e : String), w.migrateErr = none → w.idxBrincoErr = some e →
        Event.log ("Warning: Failed to create idx_animals_brinco: " ++ e)
            ∈ (AutoMigrate w).events
          ∧ Event.log indexesCreatedLine ∈ (AutoMigrate w).events)
    ∧ (∀ (w : World) (e : String), w.migrateErr = none → w.idxBirthErr = some e →
        Event.log ("Warning: Failed to create idx_animals_birth: " ++ e)
            ∈ (AutoMigrate w).events
          ∧ Event.log indexesCreatedLine ∈ (AutoMigrate w).events)
    ∧ (∃ w : World, w.migrateErr = none ∧ w.idxBrincoErr ≠ none ∧ w.idxBirthErr ≠ none
        ∧ Event.log "Warning: Failed to create idx_animals_brinco: permission denied"
            ∈ (AutoMigrate w).events
        ∧ Event.log "Warning: Failed to create idx_animals_birth: permission denied"
            ∈ (AutoMigrate w).events
        ∧ Event.log indexesCreatedLine ∈ (AutoMigrate w).events) := by
  have hline : ∀ w : World, w.migrateErr = none →
      Event.log indexesCreatedLine ∈ (AutoMigrate w).events := by
    intro w hm
    rw [AutoMigrate_ok w hm]
    simp [indexesCreatedLine]
  refine ⟨hline, ?_, ?_, ?_⟩
  · intro w e hm he
    refine ⟨?_, hline w hm⟩
    rw [AutoMigrate_ok w hm]
    simp [he, warnEvents]
  · intro w e hm he
    refine ⟨?_, hline w hm⟩
    rw [AutoMigrate_ok w hm]
    simp [he, warnEvents]
  · refine ⟨worldIndexesFail, rfl, by decide, by decide, ?_, ?_, hline _ rfl⟩
    · rw [AutoMigrate_ok worldIndexesFail rfl]
      simp [worldIndexesFail, warnEvents]
    · rw [AutoMigrate_ok worldIndexesFail rfl]
      simp [worldIndexesFail, warnEvents]

/-- Witness of C10: the first index statement fails, and its warning and the
success line are both logged. -/
theorem AutoMigrate_success_line_unconditional_witness :
    worldBrincoFails.migrateErr = none
    ∧ worldBrincoFails.idxBrincoErr = some "permission denied"
    ∧ Event.log ("Warning: Failed to create idx_animals_brinco: " ++ "permission denied")
        ∈ (AutoMigrate worldBrincoFails).events
    ∧ Event.log indexesCreatedLine ∈ (AutoMigrate worldBrincoFails).events :=
  ⟨rfl, rfl,
   AutoMigrate_success_line_unconditional.2.1 worldBrincoFails "permission denied" rfl rfl⟩

/-! ## C7 -/

/-- C7. The handler of `GET /` returns, performs no event (so no database
query), and leaves the response with the JSON body
`{"status":"ZapManejo backend live"}`, content type `application/json` and the
status unchanged, which is 200 on the context fiber hands to a handler; for any
two database states, a nil handle included, the run of the handler is the
same. -/
theorem healthCheck_independent_of_database (db1 db2 : Database) (c : Ctx) :
    healthCheck db1 c = healthCheck db2 c
    ∧ (healthCheck db1 c).events = []
    ∧ (healthCheck db1 c).result =
        some { c with
          contentType := "application/json"
          body := "\x7b\"status\":\"ZapManejo backend live\"\x7d" }
    ∧ (∀ method path,
        (healthCheck db1 (Ctx.fresh method path)).result =
          some ⟨method, path, 200, "application/json",
            "\x7b\"status\":\"ZapManejo backend live\"\x7d"⟩)
    ∧ healthCheck none c = healthCheck db1 c
    ∧ Event.lib (Lib.appGet "/") ∈ Setup.events := by
  refine ⟨rfl, rfl, ?_, ?_, rfl, ?_⟩
  · simp [healthCheck, pure, Run.ret, Ctx.JSON, jsonObject, String.intercalate,
      String.intercalate.go]
  · intro method path
    simp [healthCheck, pure, Run.ret, Ctx.JSON, jsonObject, Ctx.fresh, String.intercalate,
      String.intercalate.go]
  · simp [Setup, bind, Run.andThen, pure, Run.ret, libCall, emit, invoke]

/-! ## C8 -/

theorem foldl_applySetting_AutoMigrate (w : World) (p : PoolPolicy) :
    (AutoMigrate w).events.foldl applySetting p = p := by
  cases hm : w.migrateErr with
  | some err =>
    rw [AutoMigrate_fails w err hm]
    simp [applySetting]
  | none =>
    rw [AutoMigrate_ok w hm, SeedLifetimeSlots_eq]
    cases w.idxBrincoErr <;> cases w.idxBirthErr <;> cases w.seedErr <;>
      by_cases h : w.slots.length = 0 <;>
      simp [h, warnEvents, applySetting]

theorem policyOf_Connect (w : World) :
    policyOf (Connect w).events =
      if Getenv w.env "DATABASE_URL" ≠ "" ∧ w.openErr = none ∧ w.poolErr = none then
        ⟨some 10, some 20, some Hour, some (10 * Minute)⟩
      else ⟨none, none, none, none⟩ := by
  rw [Connect_eq]
  by_cases hd : Getenv w.env "DATABASE_URL" = ""
  · simp [hd, policyOf, applySetting]
  · cases h1 : w.openErr <;> cases h2 : w.poolErr <;> cases h3 : w.pingErr <;>
      simp [hd, policyOf, applySetting, poolEvents, List.foldl_append,
        foldl_applySetting_AutoMigrate]

/-- C8. The pool settings `Connect` applies are, in every world, either none at
all (the run ended before the pool handle was obtained) or max idle
connections 10, max open connections 20, max lifetime one hour and max idle
time ten minutes; they are the latter whenever the DSN is non-empty and the
open and the pool-handle retrieval succeed, so two runs that get that far
apply the same settings whatever their environment and DSN.  These settings
satisfy max idle ≤ max open < the ceiling of 22, with 2 connections to spare,
and idle time ≤ lifetime. -/
theorem Connect_pool_policy (w1 w2 : World) :
    (policyOf (Connect w1).events = ⟨none, none, none, none⟩
      ∨ policyOf (Connect w1).events = ⟨some 10, some 20, some Hour, some (10 * Minute)⟩)
    ∧ (Getenv w1.env "DATABASE_URL" ≠ "" → w1.openErr = none → w1.poolErr = none →
        policyOf (Connect w1).events = ⟨some 10, some 20, some Hour, some (10 * Minute)⟩)
    ∧ (Getenv w1.env "DATABASE_URL" ≠ "" → w1.openErr = none → w1.poolErr = none →
        Getenv w2.env "DATABASE_URL" ≠ "" → w2.openErr = none → w2.poolErr = none →
        policyOf (Connect w1).events = policyOf (Connect w2).events)
    ∧ (∀ idle opn life idleTime,
        policyOf (Connect w1).events = ⟨some idle, some opn, some life, some idleTime⟩ →
        idle = 10 ∧ opn = 20 ∧ idle ≤ opn ∧ opn < providerCeiling
          ∧ providerCeiling - opn = 2
          ∧ life = 3600 * Second ∧ idleTime = 600 * Second ∧ idleTime ≤ life) := by
  have hfix : ∀ w : World, Getenv w.env "DATABASE_URL" ≠ "" → w.openErr = none →
      w.poolErr = none →
      policyOf (Connect w).events = ⟨some 10, some 20, some Hour, some (10 * Minute)⟩ := by
    intro w hd h1 h2
    rw [policyOf_Connect, if_pos ⟨hd, h1, h2⟩]
  refine ⟨?_, hfix w1, ?_, ?_⟩
  · rw [policyOf_Connect]
    split_ifs
    · exact Or.inr rfl
    · exact Or.inl rfl
  · intro hd1 h11 h12 hd2 h21 h22
    rw [hfix w1 hd1 h11 h12, hfix w2 hd2 h21 h22]
  · intro idle opn life idleTime h
    rw [policyOf_Connect] at h
    split_ifs at h
    · simp only [PoolPolicy.mk.injEq, Option.some.injEq] at h
      obtain ⟨rfl, rfl, rfl, rfl⟩ := h
      simp [providerCeiling, Hour, Minute, Second]
    · simp at h

/-- Witness of C8: two worlds with different environments, DSNs and table
contents apply the same pool settings. -/
theorem Connect_pool_policy_witness :
    Getenv worldAllGood.env "DATABASE_URL" ≠ "" ∧ worldAllGood.openErr = none
    ∧ worldAllGood.poolErr = none
    ∧ Getenv worldOtherDsn.env "DATABASE_URL" ≠ "" ∧ worldOtherDsn.openErr = none
    ∧ worldOtherDsn.poolErr = none
    ∧ Getenv worldAllGood.env "DATABASE_URL" ≠ Getenv worldOtherDsn.env "DATABASE_URL"
    ∧ policyOf (Connect worldAllGood).events = policyOf (Connect worldOtherDsn).events
    ∧ policyOf (Connect worldAllGood).events
        = ⟨some 10, some 20, some Hour, some (10 * Minute)⟩ :=
  ⟨by decide, rfl, rfl, by decide, rfl, rfl, by decide,
   (Connect_pool_policy worldAllGood worldOtherDsn).2.2.1 (by decide) rfl rfl
     (by decide) rfl rfl,
   (Connect_pool_policy worldAllGood worldOtherDsn).2.1 (by decide) rfl rfl⟩

/-! ## C9 -/

theorem AutoMigrate_fatal_mem (w : World) (msg : String) :
    Event.fatal msg ∈ (AutoMigrate w).events ↔
      ∃ err, w.migrateErr = some err ∧ msg = "Failed to migrate database schema:" ++ err := by
  cases hm : w.migrateErr with
  | some err =>
    rw [AutoMigrate_fails w err hm]
    simp
  | none =>
    rw [AutoMigrate_ok w hm, SeedLifetimeSlots_eq]
    cases w.idxBrincoErr <;> cases w.idxBirthErr <;> cases w.seedErr <;>
      by_cases h : w.slots.length = 0 <;>
      simp [h, warnEvents]

theorem dsnFatal_mem_Connect (w : World) :
    Event.fatal "DATABASE_URL not set" ∈ (Connect w).events ↔
      Getenv w.env "DATABASE_URL" = "" := by
  have h1 : ∀ e, "DATABASE_URL not set" ≠ "Failed to connect to database:" ++ e :=
    fun e => ne_append_of_not_startsWith _ _ e (by decide)
  have h2 : ∀ e, "DATABASE_URL not set" ≠ "Failed to get database instance:" ++ e :=
    fun e => ne_append_of_not_startsWith _ _ e (by decide)
  have h3 : ∀ e, "DATABASE_URL not set" ≠ "Database ping failed:" ++ e :=
    fun e => ne_append_of_not_startsWith _ _ e (by decide)
  have h4 : ∀ e, "DATABASE_URL not set" ≠ "Failed to migrate database schema:" ++ e :=
    fun e => ne_append_of_not_startsWith _ _ e (by decide)
  have hmig : Event.fatal "DATABASE_URL not set" ∉ (AutoMigrate w).events := by
    rw [AutoMigrate_fatal_mem]
    rintro ⟨err, _, he⟩
    exact h4 err he
  rw [Connect_eq]
  by_cases hd : Getenv w.env "DATABASE_URL" = ""
  · simp [hd]
  · cases w.openErr <;> cases w.poolErr <;> cases w.pingErr <;>
      simp [hd, poolEvents, h1, h2, h3, hmig]

theorem call_Connect_mem_main (order : List (String × String)) (w : World) :
    Event.call Func.Connect ∈ (main order w).events ↔
      (validateEnvVars order w.env).result ≠ none := by
  rw [main_eq]
  by_cases hv : (validateEnvVars order w.env).result = none
  · simp only [hv, if_true, ne_eq, not_true, iff_false]
    unfold preludeEvents
    rw [validateEnvVars_eq]
    by_cases hnil : order.filter (isMissing w.env) = [] <;>
      cases w.dotenvErr <;> simp [hnil]
  · by_cases hc : (Connect w).result = none <;>
      by_cases hx : w.corsNewPanic (corsConfigOf w.env) = none <;> simp [hv, hc, hx]

/-- C9. For every iteration order of the map and every world: the fatal branch
"DATABASE_URL not set" of `Connect` is taken exactly when the DSN read by
`Connect` is empty; `main` calls `Connect` exactly when `validateEnvVars`
returned; and when `validateEnvVars` returned (so in every run of `main` that
reaches `Connect`, the environment being the same for both) the DSN is
non-empty, the branch is not taken and `Connect` starts by opening the
database with that DSN. -/
theorem Connect_dsn_branch_unreachable (order : List (String × String)) (w : World)
    (hperm : order.Perm requiredEnvs) :
    (Event.fatal "DATABASE_URL not set" ∈ (Connect w).events ↔
        Getenv w.env "DATABASE_URL" = "")
    ∧ (Event.call Func.Connect ∈ (main order w).events ↔
        (validateEnvVars order w.env).result ≠ none)
    ∧ ((validateEnvVars order w.env).result ≠ none →
        Getenv w.env "DATABASE_URL" ≠ ""
        ∧ Event.fatal "DATABASE_URL not set" ∉ (Connect w).events
        ∧ (Connect w).events.head?
            = some (Event.lib (Lib.gormOpen (Getenv w.env "DATABASE_URL"))))
    ∧ (Event.call Func.Connect ∈ (main order w).events →
        Getenv w.env "DATABASE_URL" ≠ ""
        ∧ Event.fatal "DATABASE_URL not set" ∉ (Connect w).events) := by
  have key : (validateEnvVars order w.env).result ≠ none →
      Getenv w.env "DATABASE_URL" ≠ "" := by
    intro hv hd
    apply hv
    rw [validate_result_none_iff order w.env hperm]
    exact ⟨"DATABASE_URL", by decide, (Getenv_eq_empty_iff _ _).mp hd⟩
  refine ⟨dsnFatal_mem_Connect w, call_Connect_mem_main order w, ?_, ?_⟩
  · intro hv
    have hd := key hv
    refine ⟨hd, ?_, ?_⟩
    · rw [dsnFatal_mem_Connect]
      exact hd
    · rw [Connect_eq]
      cases w.openErr <;> cases w.poolErr <;> cases w.pingErr <;> simp [hd]
  · intro hc
    have hd := key ((call_Connect_mem_main order w).mp hc)
    refine ⟨hd, ?_⟩
    rw [dsnFatal_mem_Connect]
    exact hd

/-- Witness of C9: in a world with the three keys set, `validateEnvVars`
returns and `Connect` does not take the branch. -/
theorem Connect_dsn_branch_unreachable_witness :
    requiredEnvs.Perm requiredEnvs
    ∧ (validateEnvVars requiredEnvs worldAllGood.env).result ≠ none
    ∧ Getenv worldAllGood.env "DATABASE_URL" ≠ ""
    ∧ Event.fatal "DATABASE_URL not set" ∉ (Connect worldAllGood).events
    ∧ (Connect worldAllGood).events.head?
        = some (Event.lib (Lib.gormOpen (Getenv worldAllGood.env "DATABASE_URL"))) :=
  ⟨List.Perm.refl _, by decide,
   (Connect_dsn_branch_unreachable requiredEnvs worldAllGood (List.Perm.refl _)).2.2.1
     (by decide)⟩

/-! ## C5 -/

/-- C5, as stated, fails in the model of the Seed Initializer: on an empty
table, a first run whose insert fails leaves 0 rows, and a second run whose
insert succeeds leaves the 2 rows of the fixed set. -/
theorem SeedLifetimeSlots_row_count_changes_after_failed_insert :
    ∃ t1 t2,
      (SeedLifetimeSlots twoSlots (some "disk full") []).result = some t1
      ∧ (SeedLifetimeSlots twoSlots none t1).result = some t2
      ∧ t1.length = 0 ∧ t2.length = 2 ∧ t2.length ≠ t1.length :=
  ⟨[], twoSlots, rfl, rfl, rfl, rfl, by decide⟩

/-- C5, amended. For every fixed set, every content of the lifetime-slot table
and every insert outcome of a first and of a second run of the Seed
Initializer in succession, both runs return, and the table has as many rows
after the second run as after the first except in one case: the table was
empty, the insert of the first run failed, the insert of the second run
succeeded and the fixed set is non-empty.  A run on a non-empty table leaves
the table as it is and performs no insert; an insert is performed only on an
empty table, and it is an insert of the fixed set; on an empty table a
successful insert leaves exactly the fixed set. -/
theorem SeedLifetimeSlots_row_count_kept_iff (seedSet : List LifetimeSlot)
    (err1 err2 : Option String) (table : List LifetimeSlot) :
    ∃ t1 t2,
      (SeedLifetimeSlots seedSet err1 table).result = some t1
      ∧ (SeedLifetimeSlots seedSet err2 t1).result = some t2
      ∧ (t2.length = t1.length ↔
          ¬ (table = [] ∧ err1 ≠ none ∧ err2 = none ∧ seedSet ≠ []))
      ∧ (err1 = none ∨ table ≠ [] → t2.length = t1.length)
      ∧ (err1 = err2 → t2.length = t1.length)
      ∧ (table ≠ [] → t1 = table
          ∧ ∀ rows, Event.lib (Lib.createSlots rows)
              ∉ (SeedLifetimeSlots seedSet err1 table).events)
      ∧ (t1 ≠ [] → t2 = t1
          ∧ ∀ rows, Event.lib (Lib.createSlots rows)
              ∉ (SeedLifetimeSlots seedSet err2 t1).events)
      ∧ (∀ rows, Event.lib (Lib.createSlots rows)
            ∈ (SeedLifetimeSlots seedSet err1 table).events →
          table = [] ∧ rows = seedSet)
      ∧ (table = [] → err1 = none → t1 = seedSet) := by
  simp only [SeedLifetimeSlots_eq]
  cases table with
  | cons r rest =>
    exact ⟨r :: rest, r :: rest, by simp, by simp, by simp, by simp, by simp, by simp,
      by simp, by simp, by simp⟩
  | nil =>
    cases err1 with
    | none =>
      cases seedSet with
      | nil =>
        refine ⟨[], [], by simp, ?_, by simp, by simp, ?_, by simp, by simp,
          by simp [warnEvents], by simp⟩
        · cases err2 <;> simp
        · intro h
          subst h
          rfl
      | cons s rest =>
        exact ⟨s :: rest, s :: rest, by simp, by simp, by simp, by simp, by simp, by simp,
          by simp, by simp [warnEvents], by simp⟩
    | some e1 =>
      cases err2 with
      | some e2 =>
        exact ⟨[], [], by simp, by simp, by simp, by simp, by simp, by simp, by simp,
          by simp [warnEvents], by simp⟩
      | none =>
        refine ⟨[], seedSet, by simp, by simp, ?_, by simp, by simp, by simp, by simp,
          by simp [warnEvents], by simp⟩
        cases seedSet <;> simp

/-- Witness of C5, amended: on an empty table with a successful insert of two
records, a second run whose insert would fail keeps the two rows. -/
theorem SeedLifetimeSlots_row_count_kept_iff_witness :
    ∃ t1 t2,
      (SeedLifetimeSlots twoSlots none []).result = some t1
      ∧ (SeedLifetimeSlots twoSlots (some "disk full") t1).result = some t2
      ∧ ((none : Option String) = none ∨ ([] : List LifetimeSlot) ≠ [])
      ∧ t2.length = t1.length := by
  obtain ⟨t1, t2, h1, h2, _, h4, _⟩ :=
    SeedLifetimeSlots_row_count_kept_iff twoSlots none (some "disk full") []
  exact ⟨t1, t2, h1, h2, Or.inl rfl, h4 (Or.inl rfl)⟩

/-! ## C6 -/

theorem quietBefore_spec (e : Event) (h : quietBefore e = true) :
    isCorsNew e = false ∧ isCorsInstall e = false ∧ isLogWith fallbackPrefix e = false
      ∧ e ≠ Event.call Func.Setup := by
  cases e with
  | log line => simpa [quietBefore, isCorsNew, isCorsInstall, isLogWith] using h
  | fatal msg => simp [isCorsNew, isCorsInstall, isLogWith]
  | panic msg => simp [isCorsNew, isCorsInstall, isLogWith]
  | call f => cases f <;> simp [quietBefore, isCorsNew, isCorsInstall, isLogWith] at h ⊢
  | lib c => cases c <;> simp [quietBefore, isCorsNew, isCorsInstall, isLogWith] at h ⊢

theorem quiet_warnEvents (pfx : String) (o : Option String)
    (h1 : startsWith fallbackPrefix pfx = false) (h2 : startsWith pfx fallbackPrefix = false) :
    ∀ e ∈ warnEvents pfx o, quietBefore e = true := by
  cases o with
  | none => simp [warnEvents]
  | some err =>
    simp [warnEvents, quietBefore, startsWith_append_of_incomparable fallbackPrefix pfx err h1 h2]

theorem quiet_SeedLifetimeSlots (seedSet : List LifetimeSlot) (insertErr : Option String)
    (table : List LifetimeSlot) :
    ∀ e ∈ (SeedLifetimeSlots seedSet insertErr table).events, quietBefore e = true := by
  have hw := quiet_warnEvents "Warning: Failed to seed lifetime slots: " insertErr
    (by decide) (by decide)
  rw [SeedLifetimeSlots_eq]
  intro e he
  by_cases h : table.length = 0
  · rw [if_pos h] at he
    rcases List.mem_append.mp he with h1 | h1
    · simp only [List.mem_cons, List.mem_singleton, List.not_mem_nil, or_false] at h1
      rcases h1 with rfl | rfl <;> rfl
    · exact hw e h1
  · rw [if_neg h] at he
    simp only [List.mem_singleton] at he
    subst he
    rfl

theorem quiet_AutoMigrate (w : World) : ∀ e ∈ (AutoMigrate w).events, quietBefore e = true := by
  intro e he
  cases hm : w.migrateErr with
  | some err =>
    rw [AutoMigrate_fails w err hm] at he
    simp only [List.mem_cons, List.mem_singleton, List.not_mem_nil, or_false] at he
    rcases he with rfl | rfl | rfl <;> rfl
  | none =>
    rw [AutoMigrate_ok w hm] at he
    simp only [List.mem_append] at he
    rcases he with (((((h | h) | h) | h) | h) | h) | h
    · revert e
      decide
    · exact quiet_warnEvents _ _ (by decide) (by decide) e h
    · revert e
      decide
    · exact quiet_warnEvents _ _ (by decide) (by decide) e h
    · revert e
      decide
    · exact quiet_SeedLifetimeSlots _ _ _ e h
    · revert e
      decide

theorem quiet_Connect (w : World) : ∀ e ∈ (Connect w).events, quietBefore e = true := by
  have hmig := quiet_AutoMigrate w
  rw [Connect_eq]
  by_cases hd : Getenv w.env "DATABASE_URL" = ""
  · simp [hd, quietBefore]
  · cases w.openErr <;> cases w.poolErr <;> cases w.pingErr <;>
      simp +decide [hd, poolEvents, quietBefore]
    exact hmig

theorem quiet_prelude (order : List (String × String)) (w : World) :
    ∀ e ∈ preludeEvents order w, quietBefore e = true := by
  unfold preludeEvents
  rw [validateEnvVars_eq]
  by_cases hnil : order.filter (isMissing w.env) = [] <;>
    cases w.dotenvErr <;> simp +decide [hnil, quietBefore]

theorem quiet_before_cors (order : List (String × String)) (w : World) :
    ∀ e ∈ (preludeEvents order w ++ Event.call Func.Connect :: (Connect w).events)
        ++ [Event.lib (Lib.fiberNew "ZapManejo v1.0")],
      isCorsNew e = false ∧ isCorsInstall e = false ∧ isLogWith fallbackPrefix e = false
        ∧ e ≠ Event.call Func.Setup := by
  intro e he
  apply quietBefore_spec
  rcases List.mem_append.mp he with h | h
  · rcases List.mem_append.mp h with h | h
    · exact quiet_prelude order w e h
    · rcases List.mem_cons.mp h with h | h
      · subst h
        rfl
      · exact quiet_Connect w e h
  · rw [List.mem_singleton] at h
    subst h
    rfl

theorem quiet_setup_listen (w : World) :
    ∀ e ∈ setupEvents ++ listenEvents w.env w.listenRet,
      isCorsNew e = false ∧ isCorsInstall e = false
        ∧ isLogWith fallbackPrefix e = false := by
  have h1 : ∀ e, startsWith fallbackPrefix ("ZapManejo backend running on :" ++ e) = false :=
    fun e => startsWith_append_of_incomparable fallbackPrefix _ e (by decide) (by decide)
  rcases w.listenRet with _ | _ | _ <;>
    simp +decide [setupEvents, listenEvents, isCorsNew, isCorsInstall, isLogWith, h1]

theorem main_events_installed (order : List (String × String)) (w : World)
    (hv : (validateEnvVars order w.env).result ≠ none) (hc : (Connect w).result ≠ none)
    (hx : w.corsNewPanic (corsConfigOf w.env) = none) :
    (main order w).events =
      ((preludeEvents order w ++ Event.call Func.Connect :: (Connect w).events)
          ++ [Event.lib (Lib.fiberNew "ZapManejo v1.0")])
        ++ (corsEvents w.env w.corsNewPanic
          ++ (setupEvents ++ listenEvents w.env w.listenRet)) := by
  rw [main_eq]
  simp [hv, hc, hx]

theorem main_events_panicked (order : List (String × String)) (w : World)
    (hv : (validateEnvVars order w.env).result ≠ none) (hc : (Connect w).result ≠ none)
    (hx : w.corsNewPanic (corsConfigOf w.env) ≠ none) :
    (main order w).events =
      ((preludeEvents order w ++ Event.call Func.Connect :: (Connect w).events)
          ++ [Event.lib (Lib.fiberNew "ZapManejo v1.0")])
        ++ corsEvents w.env w.corsNewPanic := by
  rw [main_eq]
  simp [hv, hc, hx]

theorem main_event_shape (order : List (String × String)) (w : World) :
    ∀ e ∈ (main order w).events,
      (isCorsNew e = false ∧ isCorsInstall e = false ∧ isLogWith fallbackPrefix e = false)
        ∨ e ∈ corsEvents w.env w.corsNewPanic := by
  intro e he
  by_cases hv : (validateEnvVars order w.env).result = none
  · rw [main_eq, if_pos hv] at he
    have h := quietBefore_spec e (quiet_prelude order w e he)
    exact Or.inl ⟨h.1, h.2.1, h.2.2.1⟩
  · by_cases hc : (Connect w).result = none
    · rw [main_eq, if_neg hv, if_pos hc] at he
      have h := quiet_before_cors order w e
        (List.mem_append_left _ (by simpa using he))
      exact Or.inl ⟨h.1, h.2.1, h.2.2.1⟩
    · by_cases hx : w.corsNewPanic (corsConfigOf w.env) = none
      · rw [main_events_installed order w hv hc hx] at he
        rcases List.mem_append.mp he with h | h
        · have h := quiet_before_cors order w e h
          exact Or.inl ⟨h.1, h.2.1, h.2.2.1⟩
        · rcases List.mem_append.mp h with h | h
          · exact Or.inr h
          · exact Or.inl (quiet_setup_listen w e h)
      · rw [main_events_panicked order w hv hc hx] at he
        rcases List.mem_append.mp he with h | h
        · have h := quiet_before_cors order w e h
          exact Or.inl ⟨h.1, h.2.1, h.2.2.1⟩
        · exact Or.inr h

theorem mem_corsEvents (w : World) (e : Event) (he : e ∈ corsEvents w.env w.corsNewPanic) :
    (e = Event.log "ALLOWED_ORIGINS not set, using default: http://localhost:3000"
        ∧ Getenv w.env "ALLOWED_ORIGINS" = "")
      ∨ e = Event.lib (Lib.corsNew (corsConfigOf w.env))
      ∨ e = Event.lib (Lib.appUse (corsConfigOf w.env))
      ∨ ∃ msg, e = Event.panic msg := by
  unfold corsEvents at he
  simp only [List.mem_append, List.mem_singleton] at he
  rcases he with (h | h) | h
  · by_cases ho : Getenv w.env "ALLOWED_ORIGINS" = ""
    · rw [if_pos ho, List.mem_singleton] at h
      exact Or.inl ⟨h, ho⟩
    · rw [if_neg ho] at h
      exact absurd h (List.not_mem_nil _)
  · exact Or.inr (Or.inl h)
  · cases hx : w.corsNewPanic (corsConfigOf w.env) with
    | none =>
      rw [hx, List.mem_singleton] at h
      exact Or.inr (Or.inr (Or.inl h))
    | some msg =>
      rw [hx, List.mem_singleton] at h
      exact Or.inr (Or.inr (Or.inr ⟨msg, h⟩))

theorem cors_config_in_main (order : List (String × String)) (w : World) (cfg : CorsConfig)
    (h : Event.lib (Lib.corsNew cfg) ∈ (main order w).events
      ∨ Event.lib (Lib.appUse cfg) ∈ (main order w).events) :
    cfg = corsConfigOf w.env := by
  rcases h with h | h
  · rcases main_event_shape order w _ h with hq | hq
    · simp [isCorsNew] at hq
    · rcases mem_corsEvents w _ hq with h1 | h1 | h1 | ⟨msg, h1⟩
      · exact absurd h1.1 (by simp)
      · injection h1 with h1
        injection h1
      · exact absurd h1 (by simp)
      · exact absurd h1 (by simp)
  · rcases main_event_shape order w _ h with hq | hq
    · simp [isCorsInstall] at hq
    · rcases mem_corsEvents w _ hq with h1 | h1 | h1 | ⟨msg, h1⟩
      · exact absurd h1.1 (by simp)
      · exact absurd h1 (by simp)
      · injection h1 with h1
        injection h1
      · exact absurd h1 (by simp)

theorem count_corsEvents (w : World) :
    List.countP isCorsNew (corsEvents w.env w.corsNewPanic) = 1
    ∧ List.countP isCorsInstall (corsEvents w.env w.corsNewPanic)
        = (if w.corsNewPanic (corsConfigOf w.env) = none then 1 else 0) := by
  unfold corsEvents
  by_cases ho : Getenv w.env "ALLOWED_ORIGINS" = "" <;>
    cases hx : w.corsNewPanic (corsConfigOf w.env) <;>
    simp [ho, List.countP_cons, isCorsNew, isCorsInstall]

theorem countP_eq_zero_of_quiet (p : Event → Bool) (l : List Event)
    (h : ∀ e ∈ l, p e = false) : List.countP p l = 0 := by
  rw [List.countP_eq_zero]
  intro e he
  simp [h e he]

theorem countP_middle (p : Event → Bool) (a b c : List Event)
    (ha : List.countP p a = 0) (hc : List.countP p c = 0) :
    List.countP p (a ++ (b ++ c)) = List.countP p b := by
  simp [List.countP_append, ha, hc]

theorem countP_right (p : Event → Bool) (a b : List Event) (ha : List.countP p a = 0) :
    List.countP p (a ++ b) = List.countP p b := by
  simp [List.countP_append, ha]

/-- C6, as stated, fails when `cors.New` panics: with `ALLOWED_ORIGINS` set to
`"*"` and fiber's guard against a wildcard origin with credentials, the run gets
past `Connect`, calls `cors.New` with `AllowOrigins = "*"`, panics, and installs
no CORS policy. -/
theorem main_wildcard_origin_installs_no_policy :
    worldWildcardOrigins.env "ALLOWED_ORIGINS" = some "*"
    ∧ (validateEnvVars requiredEnvs worldWildcardOrigins.env).result ≠ none
    ∧ (Connect worldWildcardOrigins).result ≠ none
    ∧ (∀ cfg, Event.lib (Lib.appUse cfg) ∉ (main requiredEnvs worldWildcardOrigins).events)
    ∧ (main requiredEnvs worldWildcardOrigins).events.getLast?
        = some (Event.panic
            "[CORS] Insecure setup, 'AllowCredentials' is set to true, and 'AllowOrigins' is set to a wildcard.") := by
  have hv : (validateEnvVars requiredEnvs worldWildcardOrigins.env).result ≠ none := by decide
  have hc : (Connect worldWildcardOrigins).result ≠ none := by decide
  have hx : worldWildcardOrigins.corsNewPanic (corsConfigOf worldWildcardOrigins.env) ≠ none := by
    decide
  refine ⟨rfl, hv, hc, ?_, ?_⟩
  · intro cfg hmem
    rcases main_event_shape requiredEnvs worldWildcardOrigins _ hmem with hq | hq
    · simp [isCorsInstall] at hq
    · rcases mem_corsEvents _ _ hq with h1 | h1 | h1 | ⟨msg, h1⟩
      · exact absurd h1.1 (by simp)
      · exact absurd h1 (by simp)
      · have hin : Event.lib (Lib.appUse (corsConfigOf worldWildcardOrigins.env))
            ∈ corsEvents worldWildcardOrigins.env worldWildcardOrigins.corsNewPanic := h1 ▸ hq
        revert hin
        decide
      · exact absurd h1 (by simp)
  · rw [main_events_panicked requiredEnvs worldWildcardOrigins hv hc hx, List.getLast?_append]
    decide

/-- C6, amended. In `main`, the configuration handed to `cors.New`, and so
every CORS policy installed, has `AllowOrigins = "http://localhost:3000"` when
`ALLOWED_ORIGINS` is unset or empty, and in a run that gets past `Connect` the
line "ALLOWED_ORIGINS not set, using default: http://localhost:3000" is then
logged; when `ALLOWED_ORIGINS` is set to a non-empty value, the configuration
has that value unchanged and no line starting with "ALLOWED_ORIGINS not set" is
logged.  A run that gets past `Connect` calls `cors.New` once; it installs
exactly one CORS policy when `cors.New` returns, and when `cors.New` panics it
installs none, ends in the panic and never calls `routes.Setup`. -/
theorem main_cors_allow_origins (order : List (String × String)) (w : World) :
    ((w.env "ALLOWED_ORIGINS" = none ∨ w.env "ALLOWED_ORIGINS" = some "") →
      ∀ cfg, (Event.lib (Lib.corsNew cfg) ∈ (main order w).events
          ∨ Event.lib (Lib.appUse cfg) ∈ (main order w).events) →
        cfg.AllowOrigins = "http://localhost:3000")
    ∧ ((w.env "ALLOWED_ORIGINS" = none ∨ w.env "ALLOWED_ORIGINS" = some "") →
      (validateEnvVars order w.env).result ≠ none → (Connect w).result ≠ none →
        Event.log "ALLOWED_ORIGINS not set, using default: http://localhost:3000"
          ∈ (main order w).events)
    ∧ (∀ v, w.env "ALLOWED_ORIGINS" = some v → v ≠ "" →
      (∀ cfg, (Event.lib (Lib.corsNew cfg) ∈ (main order w).events
          ∨ Event.lib (Lib.appUse cfg) ∈ (main order w).events) →
        cfg.AllowOrigins = v)
      ∧ ∀ e ∈ (main order w).events, isLogWith fallbackPrefix e = false)
    ∧ ((validateEnvVars order w.env).result ≠ none → (Connect w).result ≠ none →
      (main order w).events.countP isCorsNew = 1)
    ∧ ((validateEnvVars order w.env).result ≠ none → (Connect w).result ≠ none →
      w.corsNewPanic (corsConfigOf w.env) = none →
      (main order w).events.countP isCorsInstall = 1
        ∧ Event.lib (Lib.appUse (corsConfigOf w.env)) ∈ (main order w).events)
    ∧ ((validateEnvVars order w.env).result ≠ none → (Connect w).result ≠ none →
      ∀ msg, w.corsNewPanic (corsConfigOf w.env) = some msg →
      (main order w).events.countP isCorsInstall = 0
        ∧ (main order w).events.getLast? = some (Event.panic msg)
        ∧ Event.call Func.Setup ∉ (main order w).events) := by
  have hbefore := quiet_before_cors order w
  have htail := quiet_setup_listen w
  have hcnt := count_corsEvents w
  have cb1 := countP_eq_zero_of_quiet isCorsNew _ (fun e he => (hbefore e he).1)
  have cb2 := countP_eq_zero_of_quiet isCorsInstall _ (fun e he => (hbefore e he).2.1)
  have ct1 := countP_eq_zero_of_quiet isCorsNew _ (fun e he => (htail e he).1)
  have ct2 := countP_eq_zero_of_quiet isCorsInstall _ (fun e he => (htail e he).2.1)
  refine ⟨?_, ?_, ?_, ?_, ?_, ?_⟩
  · intro hunset cfg hmem
    have hg : Getenv w.env "ALLOWED_ORIGINS" = "" := (Getenv_eq_empty_iff _ _).mpr hunset
    rw [cors_config_in_main order w cfg hmem]
    simp [corsConfigOf, hg]
  · intro hunset hv hc
    have hg : Getenv w.env "ALLOWED_ORIGINS" = "" := (Getenv_eq_empty_iff _ _).mpr hunset
    have hin : Event.log "ALLOWED_ORIGINS not set, using default: http://localhost:3000"
        ∈ corsEvents w.env w.corsNewPanic := by
      simp [corsEvents, hg]
    by_cases hx : w.corsNewPanic (corsConfigOf w.env) = none
    · rw [main_events_installed order w hv hc hx]
      exact List.mem_append_right _ (List.mem_append_left _ hin)
    · rw [main_events_panicked order w hv hc hx]
      exact List.mem_append_right _ hin
  · intro v hset hne
    have hg : Getenv w.env "ALLOWED_ORIGINS" = v := by simp [Getenv, hset]
    have hg2 : ¬ Getenv w.env "ALLOWED_ORIGINS" = "" := by rw [hg]; exact hne
    refine ⟨?_, ?_⟩
    · intro cfg hmem
      rw [cors_config_in_main order w cfg hmem]
      simp [corsConfigOf, hg, hne]
    · intro e he
      rcases main_event_shape order w e he with h | h
      · exact h.2.2
      · rcases mem_corsEvents w e h with h1 | h1 | h1 | ⟨msg, h1⟩
        · exact absurd h1.2 hg2
        · rw [h1]; rfl
        · rw [h1]; rfl
        · rw [h1]; rfl
  · intro hv hc
    by_cases hx : w.corsNewPanic (corsConfigOf w.env) = none
    · rw [main_events_installed order w hv hc hx, countP_middle _ _ _ _ cb1 ct1, hcnt.1]
    · rw [main_events_panicked order w hv hc hx, countP_right _ _ _ cb1, hcnt.1]
  · intro hv hc hx
    refine ⟨?_, ?_⟩
    · rw [main_events_installed order w hv hc hx, countP_middle _ _ _ _ cb2 ct2, hcnt.2,
        if_pos hx]
    · rw [main_events_installed order w hv hc hx]
      apply List.mem_append_right
      apply List.mem_append_left
      simp [corsEvents, hx]
  · intro hv hc msg hx
    have hx2 : w.corsNewPanic (corsConfigOf w.env) ≠ none := by simp [hx]
    rw [main_events_panicked order w hv hc hx2]
    refine ⟨?_, ?_, ?_⟩
    · rw [countP_right _ _ _ cb2, hcnt.2, if_neg hx2]
    · rw [List.getLast?_append]
      simp [corsEvents, hx]
    · intro hmem
      rcases List.mem_append.mp hmem with h | h
      · exact (hbefore _ h).2.2.2 rfl
      · rcases mem_corsEvents w _ h with h1 | h1 | h1 | ⟨m, h1⟩
        · exact absurd h1.1 (by simp)
        · exact absurd h1 (by simp)
        · exact absurd h1 (by simp)
        · exact absurd h1 (by simp)

/-- Witness of C6, amended: without `ALLOWED_ORIGINS` the fallback is logged
and one policy is installed; with `ALLOWED_ORIGINS` set to an origin the
configuration carries its value. -/
theorem main_cors_allow_origins_witness :
    ((worldAllGood.env "ALLOWED_ORIGINS" = none ∨ worldAllGood.env "ALLOWED_ORIGINS" = some "")
      ∧ (validateEnvVars requiredEnvs worldAllGood.env).result ≠ none
      ∧ (Connect worldAllGood).result ≠ none
      ∧ worldAllGood.corsNewPanic (corsConfigOf worldAllGood.env) = none
      ∧ Event.log "ALLOWED_ORIGINS not set, using default: http://localhost:3000"
          ∈ (main requiredEnvs worldAllGood).events
      ∧ (main requiredEnvs worldAllGood).events.countP isCorsInstall = 1)
    ∧ (worldWithOrigins.env "ALLOWED_ORIGINS" = some "https://app.zapmanejo.com"
      ∧ "https://app.zapmanejo.com" ≠ ""
      ∧ (∀ cfg, (Event.lib (Lib.corsNew cfg) ∈ (main requiredEnvs worldWithOrigins).events
            ∨ Event.lib (Lib.appUse cfg) ∈ (main requiredEnvs worldWithOrigins).events) →
          cfg.AllowOrigins = "https://app.zapmanejo.com")
      ∧ ∀ e ∈ (main requiredEnvs worldWithOrigins).events,
          isLogWith fallbackPrefix e = false) :=
  ⟨⟨Or.inl rfl, by decide, by decide, by decide,
      (main_cors_allow_origins requiredEnvs worldAllGood).2.1 (Or.inl rfl)
        (by decide) (by decide),
      ((main_cors_allow_origins requiredEnvs worldAllGood).2.2.2.2.1
        (by decide) (by decide) (by decide)).1⟩,
   ⟨rfl, by decide,
      (main_cors_allow_origins requiredEnvs worldWithOrigins).2.2.1
        "https://app.zapmanejo.com" rfl (by decide)⟩⟩

end ZapManejo
